import Mathlib

/-!
Verification of the v0-dual-bot chat route (src/unnamed/part_002 and
src/app/api/direct-chat/route.tsx) against its natural-language
specification.  The JavaScript route handlers are shallowly embedded as
pure Lean functions; external HTTP providers (OpenAI, Google Gemini,
Perplexity, Tavily) appear as oracle parameters that return the
already-parsed outcome of each upstream call, exactly at the boundary
where the route code inspects the response.
-/

namespace DualBot

/-! ## JavaScript string primitives

The route relies on JS `String.prototype.trim`, the `\s` regex class and
multiline `^`.  These are modelled on `List Char`. -/

/-- JS line terminators (`\n`, `\r`, U+2028, U+2029); multiline `^`
matches after any of these, and `.` matches none of them. -/
def isLineTerm (c : Char) : Bool :=
  c = '\n' || c = '\r' || c = Char.ofNat 0x2028 || c = Char.ofNat 0x2029

/-- The JS `\s` class (also the set removed by `String.prototype.trim`). -/
def jsWs (c : Char) : Bool :=
  c = ' ' || c = '\t' || c = '\n' || c = '\r' ||
  c = Char.ofNat 0x0b || c = Char.ofNat 0x0c ||
  c = Char.ofNat 0xa0 || c = Char.ofNat 0x1680 ||
  (0x2000 ≤ c.toNat && c.toNat ≤ 0x200a) ||
  c = Char.ofNat 0x2028 || c = Char.ofNat 0x2029 ||
  c = Char.ofNat 0x202f || c = Char.ofNat 0x205f ||
  c = Char.ofNat 0x3000 || c = Char.ofNat 0xfeff

/-- JS `String.prototype.trim` on a character list. -/
def jsTrim (cs : List Char) : List Char :=
  ((cs.dropWhile jsWs).reverse.dropWhile jsWs).reverse

/-- JS `String.prototype.trim` on a `String`. -/
def jsTrimS (s : String) : String := ⟨jsTrim s.data⟩

/-- Contiguous-sublist test on character lists. -/
def infixOf (pat : List Char) : List Char → Bool
  | [] => pat.isEmpty
  | c :: rest => pat.isPrefixOf (c :: rest) || infixOf pat rest

/-- JS `a.includes(b)` substring test. -/
def strContains (s pat : String) : Bool := infixOf pat.data s.data

/-- JS `Array.prototype.join(sep)` (here always with a list of strings). -/
def joinSep (sep : String) : List String → String
  | [] => ""
  | p :: ps => ps.foldl (fun acc x => acc ++ sep ++ x) p

/-- JS `Array.prototype.map((x, i) => ...)`, starting at index `k`. -/
def mapWithIndex (f : Nat → α → β) : Nat → List α → List β
  | _, [] => []
  | k, a :: as => f k a :: mapWithIndex f (k + 1) as

/-! ## Text sanitizer

`handleGoogle`, `handlePerplexityToGemini` and
`handlePerplexityChatGPTToGemini` all post-process the Gemini text with
the same chain of `String.replace` calls:

```
.replace(/\*\*(.*?)\*\*/g, '$1')   // bold
.replace(/\*(.*?)\*/g, '$1')       // italic
.replace(/`(.*?)`/g, '$1')         // inline code
.replace(/^#+\s+/gm, '')           // headings
.replace(/\[([^\]]+)\]\([^)]+\)/g, '$1')  // links -> text
.replace(/^[-*+]\s+/gm, '')        // list markers
.replace(/\n{3,}/g, '\n\n')        // collapse newline runs
.trim()
```

Each regex pass is embedded as a left-to-right scanner.  The scanners
take a fuel argument (always called with `length + 1`, enough for the
full scan) so that they are structurally recursive and compute by
kernel reduction. -/

/-- Search for the earliest occurrence of closing delimiter `d` in `cs`,
with only non-line-terminator characters before it (the lazy `(.*?)`
of the bold/italic/code regexes cannot cross a line terminator).
Returns the skipped middle and the suffix after the delimiter. -/
def findClose (d : List Char) : List Char → Option (List Char × List Char)
  | [] => none
  | x :: xs =>
    if d.isPrefixOf (x :: xs) then some ([], (x :: xs).drop d.length)
    else if isLineTerm x then none
    else match findClose d xs with
      | some (m, a) => some (x :: m, a)
      | none => none

/-- One `replace(/d(.*?)d/g, '$1')` pass: at each position, if the open
delimiter matches and a close is found on the same line, the match is
replaced by its middle and scanning resumes after the match; otherwise
scanning advances one character. -/
def replDelimGo (d : List Char) : Nat → List Char → List Char
  | 0, cs => cs
  | _ + 1, [] => []
  | fuel + 1, c :: rest =>
    if d.isPrefixOf (c :: rest) then
      match findClose d ((c :: rest).drop d.length) with
      | some (m, a) => m ++ replDelimGo d fuel a
      | none => c :: replDelimGo d fuel rest
    else c :: replDelimGo d fuel rest

def replaceDelim (d : List Char) (cs : List Char) : List Char :=
  replDelimGo d (cs.length + 1) cs

/-- One `replace(/^#+\s+/gm, '')` pass.  `atStart` records whether the
current position is a line start (position 0 or preceded by a line
terminator); `\s+` is greedy and may consume line terminators, in which
case the position after the match is again a line start. -/
def rmHeadingsGo : Nat → Bool → List Char → List Char
  | 0, _, cs => cs
  | _ + 1, _, [] => []
  | fuel + 1, atStart, c :: rest =>
    if atStart ∧ c = '#' then
      let afterH := rest.dropWhile (· = '#')
      match afterH with
      | [] => c :: rmHeadingsGo fuel false rest
      | w :: ws =>
        if jsWs w then
          let wsRun := (w :: ws).takeWhile jsWs
          rmHeadingsGo fuel ((wsRun.getLast?.map isLineTerm).getD false)
            ((w :: ws).dropWhile jsWs)
        else c :: rmHeadingsGo fuel false rest
    else c :: rmHeadingsGo fuel (isLineTerm c) rest

def rmHeadings (cs : List Char) : List Char := rmHeadingsGo (cs.length + 1) true cs

/-- One `replace(/^[-*+]\s+/gm, '')` pass (single marker character,
then greedy `\s+`, at a line start). -/
def rmListMarksGo : Nat → Bool → List Char → List Char
  | 0, _, cs => cs
  | _ + 1, _, [] => []
  | fuel + 1, atStart, c :: rest =>
    if atStart ∧ (c = '-' ∨ c = '*' ∨ c = '+') then
      match rest with
      | [] => [c]
      | w :: ws =>
        if jsWs w then
          let wsRun := (w :: ws).takeWhile jsWs
          rmListMarksGo fuel ((wsRun.getLast?.map isLineTerm).getD false)
            ((w :: ws).dropWhile jsWs)
        else c :: rmListMarksGo fuel false rest
    else c :: rmListMarksGo fuel (isLineTerm c) rest

def rmListMarks (cs : List Char) : List Char := rmListMarksGo (cs.length + 1) true cs

/-- One `replace(/\[([^\]]+)\]\([^)]+\)/g, '$1')` pass.  The negated
classes are greedy and cannot skip their excluded character, so the
label runs to the first `]` and the url to the first `)`. -/
def rmLinksGo : Nat → List Char → List Char
  | 0, cs => cs
  | _ + 1, [] => []
  | fuel + 1, c :: rest =>
    if c = '[' then
      let label := rest.takeWhile (· ≠ ']')
      match label, rest.dropWhile (· ≠ ']') with
      | _ :: _, ']' :: '(' :: rest2 =>
        let url := rest2.takeWhile (· ≠ ')')
        match url, rest2.dropWhile (· ≠ ')') with
        | _ :: _, ')' :: rest3 => label ++ rmLinksGo fuel rest3
        | _, _ => c :: rmLinksGo fuel rest
      | _, _ => c :: rmLinksGo fuel rest
    else c :: rmLinksGo fuel rest

def rmLinks (cs : List Char) : List Char := rmLinksGo (cs.length + 1) cs

/-- One `replace(/\n{3,}/g, '\n\n')` pass: each maximal run of three or
more `\n` becomes exactly two. -/
def collapseNlGo : Nat → List Char → List Char
  | 0, cs => cs
  | _ + 1, [] => []
  | fuel + 1, c :: rest =>
    if c = '\n' then
      let run := rest.takeWhile (· = '\n')
      (if run.length + 1 ≥ 3 then ['\n', '\n']
       else '\n' :: run) ++ collapseNlGo fuel (rest.dropWhile (· = '\n'))
    else c :: collapseNlGo fuel rest

def collapseNl (cs : List Char) : List Char := collapseNlGo (cs.length + 1) cs

/-- The full cleanup chain applied to the Gemini answer text. -/
def sanitizeL (cs : List Char) : List Char :=
  jsTrim (collapseNl (rmListMarks (rmLinks (rmHeadings
    (replaceDelim ['`'] (replaceDelim ['*'] (replaceDelim ['*', '*'] cs)))))))

/-- The text sanitizer of the route, on `String`. -/
def sanitize (s : String) : String := ⟨sanitizeL s.data⟩

/-! ## stripReferenceSection

The route drops a trailing reference section the model may have written
itself: it scans lines from the end, normalizing each line with
`normalize("NFD")`, removal of U+0300–U+036F, `toLowerCase()` and
`trim()`, and cuts at the last line starting with `nguon tham khao`. -/

/-- Combining diacritical marks stripped by `replace(/[̀-ͯ]/g, "")`. -/
def isCombiningMark (c : Char) : Bool := 0x300 ≤ c.toNat && c.toNat ≤ 0x36f

/-- ASCII lowercasing (the effect of `toLowerCase` on the base letters
left after mark stripping). -/
def asciiLower (c : Char) : Char :=
  if 0x41 ≤ c.toNat ∧ c.toNat ≤ 0x5a then Char.ofNat (c.toNat + 32) else c

/-- Effect of NFD decomposition followed by combining-mark removal,
restricted to the Latin-1 and Vietnamese precomposed letters this route
deals with: each such letter decomposes into its ASCII base letter plus
marks in U+0300–U+036F, so only the base letter remains.  Other
characters are left unchanged. -/
def nfdBase (c : Char) : Char :=
  let n := c.toNat
  if (0xc0 ≤ n ∧ n ≤ 0xc5) ∨ (0xe0 ≤ n ∧ n ≤ 0xe5) ∨ n = 0x102 ∨ n = 0x103 ∨
     (0x1ea0 ≤ n ∧ n ≤ 0x1eb7) then (if n ≤ 0xdf ∧ n ≤ 0xc5 ∨ n = 0x102 then 'A' else 'a')
  else if n = 0xc7 then 'C' else if n = 0xe7 then 'c'
  else if (0xc8 ≤ n ∧ n ≤ 0xcb) ∨ (0x1eb8 ≤ n ∧ n ≤ 0x1ec7 ∧ n % 2 = 0) then 'E'
  else if (0xe8 ≤ n ∧ n ≤ 0xeb) ∨ (0x1eb8 ≤ n ∧ n ≤ 0x1ec7) then 'e'
  else if (0xcc ≤ n ∧ n ≤ 0xcf) ∨ n = 0x128 ∨ (0x1ec8 ≤ n ∧ n ≤ 0x1ecb ∧ n % 2 = 0) then 'I'
  else if (0xec ≤ n ∧ n ≤ 0xef) ∨ n = 0x129 ∨ (0x1ec8 ≤ n ∧ n ≤ 0x1ecb) then 'i'
  else if n = 0xd1 then 'N' else if n = 0xf1 then 'n'
  else if (0xd2 ≤ n ∧ n ≤ 0xd6) ∨ n = 0x1a0 ∨ (0x1ecc ≤ n ∧ n ≤ 0x1ee3 ∧ n % 2 = 0) then 'O'
  else if (0xf2 ≤ n ∧ n ≤ 0xf6) ∨ n = 0x1a1 ∨ (0x1ecc ≤ n ∧ n ≤ 0x1ee3) then 'o'
  else if (0xd9 ≤ n ∧ n ≤ 0xdc) ∨ n = 0x168 ∨ n = 0x1af ∨
          (0x1ee4 ≤ n ∧ n ≤ 0x1ef1 ∧ n % 2 = 0) then 'U'
  else if (0xf9 ≤ n ∧ n ≤ 0xfc) ∨ n = 0x169 ∨ n = 0x1b0 ∨ (0x1ee4 ≤ n ∧ n ≤ 0x1ef1) then 'u'
  else if n = 0xdd ∨ (0x1ef2 ≤ n ∧ n ≤ 0x1ef9 ∧ n % 2 = 0) then 'Y'
  else if n = 0xfd ∨ n = 0xff ∨ (0x1ef2 ≤ n ∧ n ≤ 0x1ef9) then 'y'
  else c

/-- Line normalization used for the heading match: NFD, strip combining
marks, lowercase, trim. -/
def simplifyLine (cs : List Char) : List Char :=
  jsTrim ((cs.filter (fun c => !isCombiningMark c)).map (fun c => asciiLower (nfdBase c)))

/-- One `replace(/\r\n/g, "\n")` pass. -/
def replaceCRLF : List Char → List Char
  | '\r' :: '\n' :: rest => '\n' :: replaceCRLF rest
  | c :: rest => c :: replaceCRLF rest
  | [] => []

def startsNguon (line : String) : Bool :=
  "nguon tham khao".data.isPrefixOf (simplifyLine line.data)

/-- JS `split("\n")` on a character list (keeps empty pieces). -/
def splitNlGo (acc : List Char) : List Char → List (List Char)
  | [] => [acc.reverse]
  | c :: rest =>
    if c = '\n' then acc.reverse :: splitNlGo [] rest else splitNlGo (c :: acc) rest

def splitNl (s : String) : List String := (splitNlGo [] s.data).map (⟨·⟩)

/-- stripReferenceSection from the route: cut everything from the last
line whose normalized form starts with `nguon tham khao`. -/
def stripReferenceSection (text : String) : String :=
  if text.isEmpty then text
  else
    let normalized : String := ⟨replaceCRLF text.data⟩
    let lines := splitNl normalized
    match (lines.enum.filter (fun p => startsNguon p.2)).getLast? with
    | some (i, _) => jsTrimS (joinSep "\n" (lines.take i))
    | none => jsTrimS normalized

/-! ## Data model

Conversation messages as submitted by the client: `content` is either a
plain string or an array of typed parts. -/

inductive MPart
  | text (t : String)
  | imageUrl (url : String)
deriving Repr, DecidableEq

inductive MsgContent
  | str (s : String)
  | parts (ps : List MPart)
deriving Repr, DecidableEq

structure Msg where
  role : String
  content : MsgContent
deriving Repr, DecidableEq

structure FileDesc where
  name : String
  type : String
  data : String
deriving Repr, DecidableEq

structure UploadedFile where
  fileUri : String
  name : String
  mimeType : String
deriving Repr, DecidableEq

/-- Normalized search result shape produced by the Perplexity adapter
(`searchWithPerplexityStyle` pushes `\x7b title, url, content \x7d` records). -/
structure SearchResult where
  title : String
  url : String
  content : String
deriving Repr, DecidableEq

/-- Parsed body of a Tavily search response (`answer` plus `results`). -/
structure TavilySR where
  title : String
  url : String
  content : String
deriving Repr, DecidableEq

structure TavilyData where
  answer : String
  results : List TavilySR
deriving Repr, DecidableEq

/-- Outcome of `searchWithPerplexityStyle` at the point where the
handlers inspect it: either an error object (missing key, non-OK HTTP,
or network failure) or the normalized `\x7b answer, results \x7d`. -/
inductive PerplexityOutcome
  | perr (type : String) (message : String)
  | pok (answer : String) (results : List SearchResult)
deriving Repr, DecidableEq

/-- Outcome of one OpenAI chat-completions call as the route sees it:
`netErr` is a thrown fetch error, `httpErr` a non-OK response, `ok c`
a 2xx response whose `choices[0].message.content` is `c` (or absent). -/
inductive RewriteReply
  | netErr (msg : String)
  | httpErr
  | ok (content : Option String)
deriving Repr, DecidableEq

/-- Outcome of a Gemini `generateContent` call: generated text, or a
thrown error with its message. -/
inductive GeminiOutcome
  | gok (text : String)
  | gerr (msg : String)
deriving Repr, DecidableEq

/-- Parts of a Gemini request content entry. -/
inductive GPart
  | text (t : String)
  | inlineData (mimeType : String) (data : String)
  | fileData (mimeType : String) (fileUri : String)
deriving Repr, DecidableEq

structure GContent where
  role : String
  parts : List GPart
deriving Repr, DecidableEq

/-- One entry of the `prompts` trace returned by the single/Google
handler: `prompts.push(\x7b input: \x7b system, user \x7d, output \x7d)`. -/
structure PromptRec where
  system : String
  user : String
  output : String
deriving Repr, DecidableEq

/-- Provider adapter invocation, in call order (for stating which
adapters a request actually reached). -/
inductive Event
  | search (q : String)
  | rewrite (input : String)
  | upload (name : String)
  | answer
deriving Repr, DecidableEq

/-- Environment-level API-key configuration. -/
structure Env where
  googleKey : Bool
  openaiKey : Bool
  tavilyKey : Bool
deriving Repr, DecidableEq

/-- Oracles for the external providers, giving the parsed outcome of
each upstream call.  `hostOf` models `new URL(u).hostname` (`none` when
the URL constructor throws). -/
structure Oracles where
  perplexity : String → PerplexityOutcome
  tavily : String → Option TavilyData
  rewriteHttp : String → RewriteReply
  refineHttp : String → RewriteReply
  gemini : List GContent → GeminiOutcome
  hostOf : String → Option String
  uploadFile : FileDesc → Option UploadedFile

/-- Observable result of a handler: HTTP status, error body fields,
the answer text (`choices[0].message.content`), the `type` tags of the
per-stage trace fields (`step1`/`step2`, or `steps.step1..step3`) in
order, the `prompts` trace (single handler only), and the provider
invocations performed. -/
structure HResult where
  status : Nat
  error : Option String := none
  errorType : Option String := none
  content : Option String := none
  stepTypes : List String := []
  prompts : List PromptRec := []
  events : List Event := []
deriving Repr, DecidableEq

def MAX_REFERENCES : Nat := 5

/-- Keys of MODEL_MAPPING. -/
def MODEL_KEYS : List String :=
  ["gpt-4o", "gpt-4o-mini", "gpt-4-turbo", "gpt-3.5-turbo",
   "gemini-2.5-pro", "gemini-2.5-flash", "gemini-2.5-flash-lite",
   "gemini-2.0-flash", "gemini-2.0-flash-lite", "gemini-2.0-pro",
   "gemini-1.5-flash", "gemini-1.5-flash-lite", "gemini-1.5-pro",
   "gemini-1.0-pro", "gemini-1.0-ultra", "gemini-1.0-nano",
   "gemini-embedding", "gemini-2.5-flash-preview-tts",
   "gemini-2.5-flash-preview-image-generation",
   "gemini-2.5-flash-live-preview-04-09"]

/-! ## Shared helpers of the handlers -/

/-- Question extraction from the last message: the string content, or
the text of the first `text`-typed part, defaulting to the empty
string. -/
def extractQuestion (m : Msg) : String :=
  match m.content with
  | .str s => s
  | .parts ps =>
    match ps.find? (fun p => match p with | .text _ => true | _ => false) with
    | some (.text t) => t
    | _ => ""

/-- JSON string escaping as performed by `JSON.stringify` (common
escapes; the inputs of interest contain no other control characters). -/
def jsonEscape (s : String) : String :=
  ⟨s.data.flatMap (fun c =>
    if c = '"' then ['\\', '"']
    else if c = '\\' then ['\\', '\\']
    else if c = '\n' then ['\\', 'n']
    else if c = '\r' then ['\\', 'r']
    else if c = '\t' then ['\\', 't']
    else [c])⟩

/-- `JSON.stringify` of one content part object. -/
def jsonOfPart : MPart → String
  | .text t => "\x7b\"type\":\"text\",\"text\":\"" ++ jsonEscape t ++ "\"\x7d"
  | .imageUrl u =>
    "\x7b\"type\":\"image_url\",\"image_url\":\x7b\"url\":\"" ++ jsonEscape u ++ "\"\x7d\x7d"

/-- `typeof content === "string" ? content : JSON.stringify(content)`. -/
def contentAsString : MsgContent → String
  | .str s => s
  | .parts ps => "[" ++ joinSep "," (ps.map jsonOfPart) ++ "]"

/-- Speaker label used when flattening the history into context. -/
def roleLabel (role : String) : String :=
  if role = "user" then "Người dùng" else "Trợ lý"

/-- Conversation context: all but the last message, one labelled line
each, when there is any history. -/
def conversationContextOf (messages : List Msg) : String :=
  if messages.length > 1 then
    joinSep "\n" (messages.dropLast.map
      (fun m => roleLabel m.role ++ ": " ++ contentAsString m.content))
  else ""

/-- Gemini role mapping (`assistant` becomes `model`). -/
def msgRoleGoogle (r : String) : String := if r = "assistant" then "model" else "user"

/-- The map sending the processed messages to Gemini request contents
(one text part per message, stringifying non-string content). -/
def chatContents (processedMessages : List Msg) : List GContent :=
  processedMessages.map
    (fun m => ⟨msgRoleGoogle m.role, [.text (contentAsString m.content)]⟩)

/-- Replace the content of the last message, leaving the rest
untouched (`messages.map((msg, index) => index === length - 1 ? ...)`). -/
def replaceLastContent (messages : List Msg) (s : String) : List Msg :=
  mapWithIndex
    (fun i m => if i = messages.length - 1 then { m with content := .str s } else m)
    0 messages

/-- The system prompt of `convertToPromptChatGPT`. -/
def CONTENT_SYSTEM : String :=
  "\nBạn là Chatbot ORS. Nhiệm vụ: nhận câu hỏi của user, sinh ra prompt đơn giản cho Gemini.\n\nLUỒNG XỬ LÝ:\nUser hỏi → Bạn tạo prompt → Prompt gửi cho Gemini → Gemini trả lời\n\nQUY TẮC SINH PROMPT:\n1. Nếu user chỉ chào hỏi (hi, hello, xin chào) → Trả lời: \"Xin chào! Tôi có thể giúp gì cho bạn?\"\n2. Nếu user hỏi thông tin → Sinh prompt theo mẫu này:\n\"Bạn là một trợ lý AI hữu ích. Hãy trả lời câu hỏi sau một cách rõ ràng, dễ hiểu:\n\nCâu hỏi: [câu hỏi user]\n\nYêu cầu:\n- Không sử dụng bất kỳ ký hiệu markdown nào như **, ##, ```, v.v.\n- Trình bày thông tin rõ ràng, mạch lạc\n- Sử dụng các số thứ tự (1, 2, 3) để liệt kê các ý chính\n- Mỗi ý chính nên có phần tóm tắt ngắn gọn và giải thích chi tiết\n- Nếu có nguồn tham khảo, chỉ liệt kê tối đa 5 nguồn ở cuối câu trả lời\n- Luôn trả lời bằng tiếng Việt\n- Tuyệt đối không sử dụng bất kỳ ký hiệu đặc biệt nào để định dạng văn bản\"\n\nCHÚ Ý:\n- [câu hỏi user] = copy y nguyên câu hỏi của user\n- Chỉ xuất prompt, không giải thích gì thêm\n- Đảm bảo prompt yêu cầu Gemini không sử dụng bất kỳ định dạng markdown nào\n"

/-- convertToPromptChatGPT: one ChatGPT call that rewrites the user
text into a prompt.  A non-OK response or a missing/empty
`choices[0].message.content` degrades to the original text; a thrown
fetch error propagates to the calling handler (as `Except.error`). -/
def convertToPromptChatGPT (ro : String → RewriteReply) (contentText : String) :
    Except String String :=
  match ro contentText with
  | .netErr m => .error m
  | .httpErr => .ok contentText
  | .ok none => .ok contentText
  | .ok (some c) => .ok (if c.isEmpty then contentText else c)

/-- Data-URL recognition `^data:([^;]+);base64,(.+)$` used for
`image_url` parts (the `.` of the second group matches no line
terminator, and `$` is end of input). -/
def parseDataUrl (u : String) : Option (String × String) :=
  let cs := u.data
  if "data:".data.isPrefixOf cs then
    let rest := cs.drop 5
    let mime := rest.takeWhile (· ≠ ';')
    let after := rest.dropWhile (· ≠ ';')
    if mime.isEmpty then none
    else if ";base64,".data.isPrefixOf after then
      let dat := after.drop 8
      if dat.isEmpty ∨ dat.any isLineTerm then none
      else some (⟨mime⟩, ⟨dat⟩)
    else none
  else none

/-- Conversion of one client part into Gemini parts (text kept,
data-URL images inlined, anything else dropped). -/
def partToGPart : MPart → Option GPart
  | .text t => some (.text t)
  | .imageUrl u => (parseDataUrl u).map (fun p => .inlineData p.1 p.2)

/-- Core loop of processMessagesForGoogleSDK: every string-content
message is routed through convertToPromptChatGPT (recording one
`prompts` entry), array content is converted part-wise; messages whose
part list comes out empty are dropped.  Also returns the rewrite
invocations performed, in order; a thrown rewrite call aborts the
loop. -/
def processMsgsGo (ro : String → RewriteReply) :
    List Msg → List Event × Except String (List GContent × List PromptRec)
  | [] => ([], .ok ([], []))
  | m :: rest =>
    match m.content with
    | .str s =>
      match convertToPromptChatGPT ro s with
      | .error e => ([.rewrite s], .error e)
      | .ok t =>
        let r := processMsgsGo ro rest
        (.rewrite s :: r.1,
         r.2.map (fun p =>
           (⟨msgRoleGoogle m.role, [.text t]⟩ :: p.1, ⟨CONTENT_SYSTEM, s, t⟩ :: p.2)))
    | .parts ps =>
      let gps := ps.filterMap partToGPart
      let r := processMsgsGo ro rest
      (r.1, r.2.map (fun p =>
        ((if gps.isEmpty then p.1 else ⟨msgRoleGoogle m.role, gps⟩ :: p.1), p.2)))

/-- Mutation of the last element of a list, when any. -/
def modifyLast (f : GContent → GContent) (l : List GContent) : List GContent :=
  match l.getLast? with
  | none => l
  | some x => l.dropLast ++ [f x]

/-- Appending uploaded-file references to the last content when it is a
user turn. -/
def attachUploaded (uploaded : List UploadedFile) (contents : List GContent) :
    List GContent :=
  if uploaded.isEmpty ∨ contents.isEmpty then contents
  else modifyLast (fun c =>
    if c.role = "user" then
      { c with parts := c.parts ++ uploaded.map (fun f => .fileData f.mimeType f.fileUri) }
    else c) contents

/-- Appending raw image files inline to the last content when it is a
user turn. -/
def attachInlineImages (files : List FileDesc) (contents : List GContent) :
    List GContent :=
  if files.isEmpty ∨ contents.isEmpty then contents
  else modifyLast (fun c =>
    let imgParts : List GPart :=
      (files.filter (fun f => "image/".data.isPrefixOf f.type.data)).map
        (fun f => .inlineData f.type f.data)
    if c.role = "user" then { c with parts := c.parts ++ imgParts } else c) contents

/-- processMessagesForGoogleSDK. -/
def processMessagesForGoogleSDK (ro : String → RewriteReply) (messages : List Msg)
    (files : List FileDesc) (uploadedFiles : List UploadedFile) :
    List Event × Except String (List GContent × List PromptRec) :=
  let r := processMsgsGo ro messages
  (r.1, r.2.map (fun p =>
    (attachInlineImages files (attachUploaded uploadedFiles p.1), p.2)))

/-- Office/PDF MIME types that are routed through the Files API. -/
def needsUpload (t : String) : Bool :=
  t = "application/vnd.openxmlformats-officedocument.wordprocessingml.document" ||
  t = "application/msword" ||
  t = "application/vnd.openxmlformats-officedocument.spreadsheetml.sheet" ||
  t = "application/vnd.ms-excel" ||
  t = "application/vnd.openxmlformats-officedocument.presentationml.presentation" ||
  t = "application/pdf"

/-- uploadFilesToGeminiSDK: uploads each file needing upload, dropping
the ones whose upload throws; also reports the attempted uploads. -/
def uploadFilesToGeminiSDK (env : Env) (orc : Oracles) (files : List FileDesc) :
    List UploadedFile × List Event :=
  if !env.googleKey then ([], [])
  else
    (files.filterMap (fun f => if needsUpload f.type then orc.uploadFile f else none),
     (files.filter (fun f => needsUpload f.type)).map (fun f => .upload f.name))

/-! ## The single/Google handler -/

/-- System instruction prepended to the Gemini request in handleGoogle. -/
def googleSystemText : String :=
  "Bạn là một trợ lý AI hữu ích. Khi trả lời câu hỏi, vui lòng tuân thủ các yêu cầu sau:\n1. Không sử dụng bất kỳ định dạng markdown nào (không **, ##, ```, v.v.)\n2. Trả lời bằng văn bản thuần, không cần xuống dòng thừa\n3. Sử dụng các dấu số thứ tự (1, 2, 3) để liệt kê nếu cần\n4. Trả lời bằng tiếng Việt\n5. Giữ câu trả lời ngắn gọn, súc tích\n6. Không tự thêm phần \"Nguồn tham khảo\" trong câu trả lời; hệ thống sẽ hiển thị riêng nếu có dữ liệu kèm theo\n7. Nếu không có nguồn, chỉ cần trả lời nội dung chính xác, không bổ sung ghi chú nào\n\nLƯU Ý QUAN TRỌNG: TUYỆT ĐỐI KHÔNG sử dụng bất kỳ định dạng markdown nào. Chỉ trả lời bằng văn bản thuần."

def googleSystemInstruction : GContent := ⟨"user", [.text googleSystemText]⟩

/-- Error classification of the handleGoogle catch block. -/
def classifyGoogleError (msg : String) (evs : List Event) : HResult :=
  if strContains msg "API key" then
    { status := 401,
      error := some "Invalid Google API key. Please check your configuration.",
      errorType := some "invalid_key", events := evs }
  else if strContains msg "quota" || strContains msg "limit" then
    { status := 429,
      error := some "Google API quota exceeded. Please try again later.",
      errorType := some "quota_exceeded", events := evs }
  else
    { status := 500,
      error := some (if msg.isEmpty then "Failed to get response from Google Gemini" else msg),
      errorType := some "api_error", events := evs }

/-- Sources block of handleGoogle: numbered uploaded-file lines, or the
explicit no-sources placeholder. -/
def sourcesSectionOf (displayFiles : List UploadedFile) : String :=
  if displayFiles.length > 0 then
    "Nguồn tham khảo:\n" ++ joinSep "\n"
      (mapWithIndex (fun i f => toString (i + 1) ++ ") " ++ f.name ++ " - " ++ f.fileUri)
        0 displayFiles)
  else "Nguồn tham khảo: (không có)"

/-- handleGoogle: the `single` workflow.  Uploads files, rewrites every
string-content message through ChatGPT, calls Gemini once, sanitizes,
strips any model-written reference section, and always appends a
sources block (placeholder when there are no uploaded files). -/
def handleGoogle (env : Env) (orc : Oracles) (messages : List Msg)
    (files : List FileDesc) : HResult :=
  if !env.googleKey then
    { status := 500, error := some "Google API key not configured" }
  else
    let up := uploadFilesToGeminiSDK env orc files
    let pm := processMessagesForGoogleSDK orc.rewriteHttp messages files up.1
    match pm.2 with
    | .error m => classifyGoogleError m (up.2 ++ pm.1)
    | .ok (processedContents, prompts) =>
      match orc.gemini (googleSystemInstruction :: processedContents) with
      | .gerr m => classifyGoogleError m (up.2 ++ pm.1 ++ [.answer])
      | .gok text =>
        let cleanText := sanitize text
        let responseText := stripReferenceSection cleanText
        let displayFiles := up.1.take MAX_REFERENCES
        let sourcesSection := sourcesSectionOf displayFiles
        let responseParts := (if responseText.isEmpty then [] else [responseText]) ++
          [sourcesSection]
        let finalText := joinSep "\n\n" responseParts
        { status := 200, content := some finalText, prompts := prompts,
          events := up.2 ++ pm.1 ++ [.answer] }

/-! ## The chatgpt-to-gemini handler -/

/-- Catch block shared shape: 500 with `workflow_error` and a default
message when the thrown message is empty. -/
def workflowCatch (defaultMsg msg : String) (evs : List Event) : HResult :=
  { status := 500, error := some (if msg.isEmpty then defaultMsg else msg),
    errorType := some "workflow_error", events := evs }

/-- handleChatGPTToGemini: REWRITE via convertToPromptChatGPT (never
fatal on non-OK/missing content), then ANSWER via Gemini. -/
def handleChatGPTToGemini (env : Env) (orc : Oracles) (messages : List Msg)
    (files : List FileDesc) : HResult :=
  if !env.googleKey then
    { status := 500, error := some "Google API key not configured" }
  else if !env.openaiKey then
    { status := 500,
      error := some "OpenAI API key not configured for ChatGPT-to-Gemini workflow" }
  else
    match messages.getLast? with
    | none =>
      workflowCatch "Failed to process ChatGPT-to-Gemini workflow"
        "Cannot read properties of undefined (reading content)" []
    | some lastMessage =>
      let userQuestion := extractQuestion lastMessage
      if (jsTrimS userQuestion).isEmpty then
        { status := 400, error := some "No question provided" }
      else
        let conversationContext := conversationContextOf messages
        match convertToPromptChatGPT orc.rewriteHttp userQuestion with
        | .error m =>
          workflowCatch "Failed to process ChatGPT-to-Gemini workflow" m
            [.rewrite userQuestion]
        | .ok optimizedPrompt =>
          let enhancedPrompt :=
            if !conversationContext.isEmpty then
              "NGỮ CẢNH CUỘC TRÒ CHUYỆN:\n" ++ conversationContext ++
              "\n\nCÂU HỎI HIỆN TẠI: " ++ userQuestion ++
              "\n\nPROMPT ĐÃ TỐI ƯU:\n" ++ optimizedPrompt
            else optimizedPrompt
          let processedMessages := replaceLastContent messages enhancedPrompt
          match orc.gemini (chatContents processedMessages) with
          | .gerr m =>
            workflowCatch "Failed to process ChatGPT-to-Gemini workflow" m
              [.rewrite userQuestion, .answer]
          | .gok text =>
            { status := 200, content := some text,
              stepTypes := ["chatgpt_prompt_generation", "gemini_response"],
              events := [.rewrite userQuestion, .answer] }

/-! ## The perplexity handlers -/

/-- `hostname.replace(/^www\./, "")`. -/
def stripWww (h : String) : String :=
  if "www.".data.isPrefixOf h.data then ⟨h.data.drop 4⟩ else h

/-- One numbered reference entry as rendered by both perplexity
handlers: the trimmed title (the adapter-normalized results carry no
`source` field), falling back to the URL hostname without `www.`, and
finally to an ordinal placeholder. -/
def renderPplxRef (hostOf : String → Option String) (i : Nat) (r : SearchResult) :
    String :=
  let rawUrl := jsTrimS r.url
  let url := if rawUrl.isEmpty then "(khong co URL)" else rawUrl
  let t0 := jsTrimS r.title
  let t1 :=
    if t0.isEmpty ∧ !rawUrl.isEmpty then
      match hostOf rawUrl with
      | some h => let h2 := stripWww h; if h2.isEmpty then t0 else h2
      | none => t0
    else t0
  let title := if t1.isEmpty then "Nguon " ++ toString (i + 1) else t1
  toString (i + 1) ++ ". " ++ title ++ " - " ++ url ++ "\n" ++ r.content

/-- The rendered entries: first `MAX_REFERENCES` results, in order. -/
def pplxRefEntries (hostOf : String → Option String) (rs : List SearchResult) :
    List String :=
  mapWithIndex (renderPplxRef hostOf) 0 (rs.take MAX_REFERENCES)

/-- `referencesText` of the perplexity handlers. -/
def referencesTextOf (hostOf : String → Option String) (rs : List SearchResult) :
    String :=
  joinSep "\n" (pplxRefEntries hostOf rs)

/-- Fixed instruction header of the perplexity-to-gemini prompt. -/
def pplxSystemText : String :=
  "Ban la mot tro ly AI huu ich. Hay tra loi cau hoi dua tren du lieu tim kiem duoc cung cap tu Perplexity, tuan thu cac yeu cau sau:\n1. Khong su dung bat ky dinh dang markdown nao (khong **, ##, ``` , v.v.)\n2. Tra loi bang van ban thuan, khong can xuong dong thua\n3. Su dung cac dau so thu tu (1, 2, 3) de liet ke cac y chinh neu can\n4. Tra loi bang tieng Viet\n5. Chi tong hop thong tin duoc cung cap tu Perplexity, khong them nguon ben ngoai\n6. Khong chen phan \"Nguon tham khao\" trong cau tra loi; he thong se hien thi phan nay tu du lieu dau vao\n7. Neu can nhac den nguon, chi de cap ten hoac nguon goc trong noi dung, khong dinh kem URL trong cau tra loi"

/-- Enhanced prompt composed by handlePerplexityToGemini from context,
search summary, rendered references and the question. -/
def pplxEnhancedPrompt (hostOf : String → Option String) (ctx userQuestion answer : String)
    (results : List SearchResult) : String :=
  let searchAnswer := jsTrimS answer
  let referencesText := if 0 < results.length then referencesTextOf hostOf results else ""
  let searchSections :=
    (if !searchAnswer.isEmpty then ["TÓM TẮT TỪ NGUỒN TÌM KIẾM:\n" ++ searchAnswer] else [])
    ++ (if 0 < results.length then ["THAM KHAO:\n" ++ referencesText] else [])
  let promptParts :=
    [pplxSystemText]
    ++ (if !ctx.isEmpty then ["Ngữ cảnh cuộc trò chuyện:\n" ++ ctx] else [])
    ++ (if 0 < searchSections.length then
          ["Dữ liệu tìm kiếm từ Perplexity:\n" ++ joinSep "\n\n" searchSections] else [])
    ++ ["Câu hỏi hiện tại: " ++ userQuestion]
  joinSep "\n\n" promptParts

/-- Body text of the 502 search-failure envelope. -/
def pplxErrorBody (message : String) : String :=
  if message.isEmpty then "Perplexity search failed." else message

/-- handlePerplexityToGemini: SEARCH via Perplexity (fatal on adapter
error), then ANSWER via Gemini, then sanitize/strip and append the
reference block when any references were rendered. -/
def handlePerplexityToGemini (env : Env) (orc : Oracles) (messages : List Msg)
    (files : List FileDesc) : HResult :=
  if !env.googleKey then
    { status := 500, error := some "Google API key not configured" }
  else
    match messages.getLast? with
    | none =>
      workflowCatch "Failed to process Perplexity-to-Gemini workflow"
        "Cannot read properties of undefined (reading content)" []
    | some lastMessage =>
      let userQuestion := extractQuestion lastMessage
      if (jsTrimS userQuestion).isEmpty then
        { status := 400, error := some "No question provided" }
      else
        let conversationContext := conversationContextOf messages
        match orc.perplexity userQuestion with
        | .perr _ m =>
          { status := 502, error := some (pplxErrorBody m),
            errorType := some "perplexity_search_error",
            events := [.search userQuestion] }
        | .pok answer results =>
          let referencesText :=
            if 0 < results.length then referencesTextOf orc.hostOf results else ""
          let enhancedPrompt :=
            pplxEnhancedPrompt orc.hostOf conversationContext userQuestion answer results
          let processedMessages := replaceLastContent messages enhancedPrompt
          match orc.gemini (chatContents processedMessages) with
          | .gerr m =>
            workflowCatch "Failed to process Perplexity-to-Gemini workflow" m
              [.search userQuestion, .answer]
          | .gok text =>
            let cleanText := sanitize text
            let responseText := stripReferenceSection cleanText
            let responseParts :=
              (if responseText.isEmpty then [] else [responseText]) ++
              (if referencesText.isEmpty then []
               else ["Nguồn tham khảo:\n" ++ referencesText])
            let finalText :=
              if 0 < responseParts.length then joinSep "\n\n" responseParts
              else responseText
            { status := 200, content := some finalText,
              stepTypes := ["perplexity_search", "gemini_response"],
              events := [.search userQuestion, .answer] }

/-- User-message content of the ChatGPT refinement call in the
three-stage workflow. -/
def refineUserContent (searchContext userQuestion : String) : String :=
  "RESEARCH DATA:\n" ++ searchContext ++ "\n\nORIGINAL QUESTION: " ++ userQuestion ++
  "\n\nTASK:\n1. Create a detailed Vietnamese prompt for Gemini using the research summary and references.\n2. Preserve any critical details from the original question.\n3. Provide explicit guidance on how Gemini should structure the reply.\n4. Require Gemini to answer in Vietnamese plain text without Markdown symbols.\n5. Remind Gemini to use only the provided research information and not invent additional sources.\n6. Do not instruct Gemini to add a \"Nguon tham khao\" section; the system will present references separately.\n\nReturn only the optimized prompt."

/-- Research context assembled for the refinement call: summary and
references sections, or an explicit no-data line. -/
def pplxSearchContext (hostOf : String → Option String) (a : String)
    (rs : List SearchResult) : String :=
  let searchAnswer := jsTrimS a
  let chatReferencesText := if 0 < rs.length then referencesTextOf hostOf rs else ""
  let searchContextSections :=
    (if !searchAnswer.isEmpty then ["Summary:\n" ++ searchAnswer] else [])
    ++ (if 0 < rs.length then ["References:\n" ++ chatReferencesText] else [])
  let joined := joinSep "\n\n" searchContextSections
  if joined.isEmpty then "No additional research data was returned." else joined

/-- handlePerplexityChatGPTToGemini: SEARCH via Perplexity (fatal on
adapter error), REWRITE via an inline ChatGPT call (a non-OK response
throws and is caught as a 500, only a missing/empty content degrades
to the original question), then ANSWER via Gemini. -/
def handlePerplexityChatGPTToGemini (env : Env) (orc : Oracles) (messages : List Msg)
    (files : List FileDesc) : HResult :=
  if !env.googleKey || !env.openaiKey then
    { status := 500, error := some "API keys not configured" }
  else
    match messages.getLast? with
    | none =>
      workflowCatch "Failed to process Perplexity-ChatGPT-Gemini workflow"
        "Cannot read properties of undefined (reading content)" []
    | some lastMessage =>
      let userQuestion := extractQuestion lastMessage
      if (jsTrimS userQuestion).isEmpty then
        { status := 400, error := some "No question provided" }
      else
        match orc.perplexity userQuestion with
        | .perr _ m =>
          { status := 502, error := some (pplxErrorBody m),
            errorType := some "perplexity_search_error",
            events := [.search userQuestion] }
        | .pok answer results =>
          let chatReferencesText :=
            if 0 < results.length then referencesTextOf orc.hostOf results else ""
          let searchContext := pplxSearchContext orc.hostOf answer results
          let refineInput := refineUserContent searchContext userQuestion
          match orc.refineHttp refineInput with
          | .netErr m =>
            workflowCatch "Failed to process Perplexity-ChatGPT-Gemini workflow" m
              [.search userQuestion, .rewrite refineInput]
          | .httpErr =>
            workflowCatch "Failed to process Perplexity-ChatGPT-Gemini workflow"
              "Failed to get response from ChatGPT"
              [.search userQuestion, .rewrite refineInput]
          | .ok c =>
            let refinedPrompt :=
              match c with
              | none => userQuestion
              | some s => if s.isEmpty then userQuestion else s
            match orc.gemini [⟨"user", [.text refinedPrompt]⟩] with
            | .gerr m =>
              workflowCatch "Failed to process Perplexity-ChatGPT-Gemini workflow" m
                [.search userQuestion, .rewrite refineInput, .answer]
            | .gok text =>
              let cleanText := sanitize text
              let responseText := stripReferenceSection cleanText
              let responseParts :=
                (if responseText.isEmpty then [] else [responseText]) ++
                (if chatReferencesText.isEmpty then []
                 else ["Nguồn tham khảo:\n" ++ chatReferencesText])
              let finalText :=
                if 0 < responseParts.length then joinSep "\n\n" responseParts
                else responseText
              { status := 200, content := some finalText,
                stepTypes :=
                  ["perplexity_search", "chatgpt_refinement", "gemini_response"],
                events := [.search userQuestion, .rewrite refineInput, .answer] }

/-! ## The tavily-to-gemini handler (src/app/api/direct-chat/route.tsx) -/

/-- searchWithTavily: skips silently without a key; a non-OK response
or a thrown fetch error also yields `null` (`none`).  The second
component reports whether the search HTTP call was attempted. -/
def searchWithTavily (env : Env) (orc : Oracles) (query : String) :
    Option TavilyData × List Event :=
  if !env.tavilyKey then (none, [])
  else (orc.tavily query, [.search query])

/-- Enhanced prompt of handleTavilyToGemini: built only when the search
returned a non-empty result list; otherwise the bare question is used
(any search-provided summary is ignored in that case). -/
def tavilyEnhancedPrompt (searchResults : Option TavilyData) (userQuestion : String) :
    String :=
  match searchResults with
  | none => userQuestion
  | some d =>
    if 0 < d.results.length then
      let searchContext := joinSep "\n\n"
        (mapWithIndex (fun i r =>
          toString (i + 1) ++ ". **" ++ r.title ++ "**\n" ++ r.content ++
          "\nüìç Ngu·ªìn: " ++ r.url) 0 d.results)
      let tavilyAnswer :=
        if !d.answer.isEmpty then
          "\n**T√≥m t·∫Øt t·ª´ Tavily AI:**\n" ++ d.answer ++ "\n\n"
        else ""
      tavilyAnswer ++
      "D·ª±a tr√™n th√¥ng tin t√¨m ki·∫øm m·ªõi nh·∫•t sau ƒë√¢y, h√£y tr·∫£ l·ªùi c√¢u h·ªèi c·ªßa t√¥i m·ªôt c√°ch chi ti·∫øt v√† ch√≠nh x√°c:\n\nüìö **TH√îNG TIN T√åM KI·∫æM:**\n"
      ++ searchContext ++
      "\n\n‚ùì **C√ÇU H·ªéI:** " ++ userQuestion ++
      "\n\nüìã **Y√äU C·∫¶U TR·∫¢ L·ªúI:**\n- B·∫°n ƒë√≥ng vai tr√≤ l√† m·ªôt chuy√™n gia trong lƒ©nh v·ª±c t√¨m ki·∫øm t√†i li·ªáu d·ª±a theo y√™u c·∫ßu "
      ++ userQuestion ++
      "\n- T·ª´ t√†i li·ªáu thu th·∫≠p ƒë∆∞·ª£c, b·∫°n s·∫Ω t·ªïng h·ª£p l·∫°i th√†nh m·ªôt prompt ƒë·ªÉ g·ª≠i cho Gemini\n- Kh√¥ng d√πng k√Ω hi·ªáu **, kh√¥ng markdown\n- N·∫øu th√¥ng tin t√¨m ki·∫øm kh√¥ng ƒë·ªß ho·∫∑c m√¢u thu·∫´n, h√£y n√≥i r√µ\n- Tr·∫£ l·ªùi b·∫±ng ti·∫øng Vi·ªát, s·ª≠ d·ª•ng ƒë·ªãnh d·∫°ng d·ªÖ ƒë·ªçc v·ªõi bullet points khi c·∫ßn thi·∫øt\n- Vi·∫øt b·∫±ng ti·∫øng Vi·ªát"
    else userQuestion

/-- handleTavilyToGemini: a failed or skipped search degrades to the
plain question (no error envelope), then Gemini answers; the raw text
is returned without sanitization, with both step fields always
reported. -/
def handleTavilyToGemini (env : Env) (orc : Oracles) (messages : List Msg)
    (files : List FileDesc) : HResult :=
  if !env.googleKey then
    { status := 500, error := some "Google API key not configured" }
  else
    match messages.getLast? with
    | none =>
      workflowCatch "Failed to process Tavily-to-Gemini workflow"
        "Cannot read properties of undefined (reading content)" []
    | some lastMessage =>
      let userQuestion := extractQuestion lastMessage
      if (jsTrimS userQuestion).isEmpty then
        { status := 400, error := some "No question provided" }
      else
        let sr := searchWithTavily env orc userQuestion
        let enhancedPrompt := tavilyEnhancedPrompt sr.1 userQuestion
        let processedMessages := replaceLastContent messages enhancedPrompt
        match orc.gemini (chatContents processedMessages) with
        | .gerr m =>
          workflowCatch "Failed to process Tavily-to-Gemini workflow" m
            (sr.2 ++ [.answer])
        | .gok text =>
          { status := 200, content := some text,
            stepTypes := ["tavily_search", "gemini_response"],
            events := sr.2 ++ [.answer] }

/-! ## The dispatcher (POST of src/unnamed/part_002) -/

/-- POST: rejects unsupported models with a 400; dispatches the three
named multi-stage workflows; any other workflow value (the default
`single` as well as unrecognized ids) falls through to handleGoogle. -/
def POST (env : Env) (orc : Oracles) (model workflow : String) (messages : List Msg)
    (files : List FileDesc) : HResult :=
  if !MODEL_KEYS.contains model then
    { status := 400, error := some ("Unsupported model: " ++ model) }
  else if workflow = "chatgpt-to-gemini" then
    handleChatGPTToGemini env orc messages files
  else if workflow = "perplexity-to-gemini" then
    handlePerplexityToGemini env orc messages files
  else if workflow = "perplexity-chatgpt-gemini" then
    handlePerplexityChatGPTToGemini env orc messages files
  else handleGoogle env orc messages files

/-! ## General lemmas -/

theorem mapWithIndex_length (f : Nat → α → β) (k : Nat) (l : List α) :
    (mapWithIndex f k l).length = l.length := by
  induction l generalizing k with
  | nil => rfl
  | cons a as ih => simp [mapWithIndex, ih]

theorem mapWithIndex_get (f : Nat → α → β) (k : Nat) (l : List α) (i : Nat)
    (h : i < (mapWithIndex f k l).length) (h2 : i < l.length) :
    (mapWithIndex f k l)[i] = f (k + i) l[i] := by
  induction l generalizing k i with
  | nil => simp at h2
  | cons a as ih =>
    cases i with
    | zero => simp [mapWithIndex]
    | succ n =>
      have hn : n < (mapWithIndex f (k + 1) as).length := by
        simpa [mapWithIndex] using h
      have hn2 : n < as.length := by simpa using h2
      simp only [mapWithIndex, List.getElem_cons_succ]
      rw [ih (k + 1) n hn hn2]
      congr 1
      omega

/-! ## Concrete fixtures used by witnesses and counterexamples -/

/-- All API keys configured. -/
def envAll : Env := ⟨true, true, true⟩

/-- Baseline happy-path oracles: empty Perplexity search, no Tavily
data, a successful rewrite producing `PROMPT X`, a non-OK refinement
call, and Gemini answering `Xin chao`. -/
def orcBase : Oracles :=
  ⟨fun _ => .pok "" [], fun _ => none, fun _ => .ok (some "PROMPT X"),
   fun _ => .httpErr, fun _ => .gok "Xin chao", fun _ => none, fun _ => none⟩

/-! ## C7: citation capping -/

/-- C7: for every list of deduplicated search results with N entries,
the rendered reference block contains exactly `min N 5` numbered
entries — 5 when N > 5, N when N ≤ 5 — and entry i is rendered from
the i-th result, so the first results appear in first-seen order. -/
theorem citation_capping (hostOf : String → Option String) (rs : List SearchResult) :
    (pplxRefEntries hostOf rs).length = min rs.length MAX_REFERENCES ∧
    (5 < rs.length → (pplxRefEntries hostOf rs).length = 5) ∧
    ∀ i (h : i < (pplxRefEntries hostOf rs).length) (h2 : i < rs.length),
      (pplxRefEntries hostOf rs)[i] = renderPplxRef hostOf i rs[i] := by
  have hlen : (pplxRefEntries hostOf rs).length = min rs.length MAX_REFERENCES := by
    simp [pplxRefEntries, mapWithIndex_length, Nat.min_comm]
  refine ⟨hlen, ?_, ?_⟩
  · intro h5
    rw [hlen]
    simp [MAX_REFERENCES]
    omega
  · intro i h h2
    have htk : i < (rs.take MAX_REFERENCES).length := by
      simpa [pplxRefEntries, mapWithIndex_length] using h
    have := mapWithIndex_get (renderPplxRef hostOf) 0 (rs.take MAX_REFERENCES) i
      (by simpa [pplxRefEntries] using h) htk
    simpa [pplxRefEntries, List.getElem_take] using this

/-- Witness for C7 at a concrete 7-element result list. -/
theorem citation_capping_witness :
    (pplxRefEntries (fun _ => none)
        (List.replicate 7 ⟨"t", "u", "c"⟩)).length = min 7 MAX_REFERENCES ∧
    (5 < (List.replicate 7 (⟨"t", "u", "c"⟩ : SearchResult)).length →
      (pplxRefEntries (fun _ => none) (List.replicate 7 ⟨"t", "u", "c"⟩)).length = 5) ∧
    ∀ i (h : i < (pplxRefEntries (fun _ => none)
          (List.replicate 7 (⟨"t", "u", "c"⟩ : SearchResult))).length)
      (h2 : i < (List.replicate 7 (⟨"t", "u", "c"⟩ : SearchResult)).length),
      (pplxRefEntries (fun _ => none) (List.replicate 7 ⟨"t", "u", "c"⟩))[i] =
        renderPplxRef (fun _ => none) i (List.replicate 7 ⟨"t", "u", "c"⟩)[i] := by
  have := citation_capping (fun _ => none) (List.replicate 7 ⟨"t", "u", "c"⟩)
  simpa using this

/-! ## C10: the single workflow rewrites every string-content message -/

/-- String contents of the submitted messages, in order (history and
assistant turns included). -/
def stringContents (msgs : List Msg) : List String :=
  msgs.filterMap (fun m => match m.content with | .str s => some s | _ => none)

/-- Value returned by convertToPromptChatGPT when its upstream call
does not throw. -/
def rewriteOutput (ro : String → RewriteReply) (s : String) : String :=
  match ro s with
  | .netErr _ => s
  | .httpErr => s
  | .ok none => s
  | .ok (some c) => if c.isEmpty then s else c

/-- C10: in the single workflow, processMessagesForGoogleSDK calls the
ChatGPT rewrite on every string-content message — earlier history and
assistant turns included — and records exactly one prompts entry per
such message, in order (provided no rewrite call throws). -/
theorem single_rewrites_every_string_message (ro : String → RewriteReply)
    (msgs : List Msg) (hnet : ∀ s m, ro s ≠ .netErr m) :
    (processMsgsGo ro msgs).1 = (stringContents msgs).map .rewrite ∧
    ∃ cs, (processMsgsGo ro msgs).2 =
      .ok (cs, (stringContents msgs).map
        (fun s => ⟨CONTENT_SYSTEM, s, rewriteOutput ro s⟩)) := by
  induction msgs with
  | nil => exact ⟨rfl, [], rfl⟩
  | cons m rest ih =>
    obtain ⟨ih1, cs, ih2⟩ := ih
    cases hc : m.content with
    | str s =>
      have hconv : convertToPromptChatGPT ro s = .ok (rewriteOutput ro s) := by
        unfold convertToPromptChatGPT rewriteOutput
        cases hr : ro s with
        | netErr msg => exact absurd hr (hnet s msg)
        | httpErr => rfl
        | ok c => cases c <;> rfl
      constructor
      · simp [processMsgsGo, hc, hconv, stringContents, ih1]
      · exact ⟨⟨msgRoleGoogle m.role, [.text (rewriteOutput ro s)]⟩ :: cs, by
          simp [processMsgsGo, hc, hconv, stringContents, ih2, Except.map]⟩
    | parts ps =>
      constructor
      · simp [processMsgsGo, hc, stringContents, ih1]
      · by_cases hps : (ps.filterMap partToGPart).isEmpty
        · exact ⟨cs, by simp [processMsgsGo, hc, stringContents, hps, ih2, Except.map]⟩
        · exact ⟨⟨msgRoleGoogle m.role, ps.filterMap partToGPart⟩ :: cs, by
            simp [processMsgsGo, hc, stringContents, hps, ih2, Except.map]⟩

/-- Witness for C10: a three-message conversation (user history,
assistant turn, final user turn), all string content. -/
theorem single_rewrites_every_string_message_witness :
    ((processMsgsGo orcBase.rewriteHttp
        [⟨"user", .str "cau hoi cu"⟩, ⟨"assistant", .str "tra loi cu"⟩,
         ⟨"user", .str "cau hoi moi"⟩]).1 =
      (stringContents
        [⟨"user", .str "cau hoi cu"⟩, ⟨"assistant", .str "tra loi cu"⟩,
         ⟨"user", .str "cau hoi moi"⟩]).map .rewrite ∧
     ∃ cs, (processMsgsGo orcBase.rewriteHttp
        [⟨"user", .str "cau hoi cu"⟩, ⟨"assistant", .str "tra loi cu"⟩,
         ⟨"user", .str "cau hoi moi"⟩]).2 =
      .ok (cs, (stringContents
        [⟨"user", .str "cau hoi cu"⟩, ⟨"assistant", .str "tra loi cu"⟩,
         ⟨"user", .str "cau hoi moi"⟩]).map
          (fun s => ⟨CONTENT_SYSTEM, s, rewriteOutput orcBase.rewriteHttp s⟩))) :=
  single_rewrites_every_string_message orcBase.rewriteHttp
    [⟨"user", .str "cau hoi cu"⟩, ⟨"assistant", .str "tra loi cu"⟩,
     ⟨"user", .str "cau hoi moi"⟩]
    (fun _ _ h => by simp [orcBase] at h)

/-! ## C6: model and workflow validation -/

/-- C6 counterexample: a request with a supported model but an unknown
workflow id is not rejected with a 400 — it is served by the default
single/Google handler and succeeds. -/
theorem unknown_workflow_not_rejected :
    (POST envAll orcBase "gemini-1.5-pro" "totally-unknown-workflow"
      [⟨"user", .str "hi ban"⟩] []).status = 200 ∧
    (POST envAll orcBase "gemini-1.5-pro" "totally-unknown-workflow"
      [⟨"user", .str "hi ban"⟩] []).error = none := by
  decide

/-- C6 (amended): an unsupported model id is rejected with a 400-class
client error, but an unknown workflow id is not rejected — any workflow
value other than the three named multi-stage ids falls through to the
default single/Google handler. -/
theorem model_validation_and_workflow_fallthrough :
    (∀ env orc model workflow messages files,
      MODEL_KEYS.contains model = false →
      POST env orc model workflow messages files =
        { status := 400, error := some ("Unsupported model: " ++ model) }) ∧
    (∀ env orc model workflow messages files,
      MODEL_KEYS.contains model = true →
      workflow ≠ "chatgpt-to-gemini" → workflow ≠ "perplexity-to-gemini" →
      workflow ≠ "perplexity-chatgpt-gemini" →
      POST env orc model workflow messages files =
        handleGoogle env orc messages files) := by
  constructor
  · intro env orc model workflow messages files h
    unfold POST
    rw [h]
    rfl
  · intro env orc model workflow messages files h h1 h2 h3
    unfold POST
    rw [h]
    simp [h1, h2, h3]

/-- Witness for C6 at concrete model and workflow ids. -/
theorem model_validation_and_workflow_fallthrough_witness :
    POST envAll orcBase "no-such-model" "single" [] [] =
      { status := 400, error := some ("Unsupported model: " ++ "no-such-model") } ∧
    POST envAll orcBase "gemini-1.5-pro" "weird-workflow" [] [] =
      handleGoogle envAll orcBase [] [] :=
  ⟨model_validation_and_workflow_fallthrough.1 envAll orcBase "no-such-model" "single"
      [] [] (by decide),
   model_validation_and_workflow_fallthrough.2 envAll orcBase "gemini-1.5-pro"
      "weird-workflow" [] [] (by decide) (by decide) (by decide) (by decide)⟩

/-! ## C5: empty-question rejection -/

/-- C5 counterexample: the single workflow does not validate the
question — a whitespace-only question is not rejected with a 400; the
rewrite and answer providers are both invoked. -/
theorem single_skips_empty_question_validation :
    (handleGoogle envAll orcBase [⟨"user", .str "   "⟩] []).status = 200 ∧
    (handleGoogle envAll orcBase [⟨"user", .str "   "⟩] []).events =
      [.rewrite "   ", .answer] := by
  decide

/-- C5 (amended): the four multi-stage handlers reject a blank or
whitespace-only question with a 400 validation error and an untouched
(empty) provider-invocation list; the single/Google handler performs no
such validation — on a blank question it still invokes the rewrite and
answer providers. -/
theorem empty_question_validation (env : Env) (orc : Oracles) (messages : List Msg)
    (files : List FileDesc) (m : Msg) (q p t : String)
    (hg : env.googleKey = true) (ho : env.openaiKey = true)
    (hm : messages.getLast? = some m)
    (hq : (jsTrimS (extractQuestion m)).isEmpty = true)
    (hqb : (jsTrimS q).isEmpty = true)
    (hconv : convertToPromptChatGPT orc.rewriteHttp q = .ok p)
    (hgem : ∀ x, orc.gemini x = .gok t) :
    handleChatGPTToGemini env orc messages files =
      { status := 400, error := some "No question provided" } ∧
    handlePerplexityToGemini env orc messages files =
      { status := 400, error := some "No question provided" } ∧
    handlePerplexityChatGPTToGemini env orc messages files =
      { status := 400, error := some "No question provided" } ∧
    handleTavilyToGemini env orc messages files =
      { status := 400, error := some "No question provided" } ∧
    (handleGoogle env orc [⟨"user", .str q⟩] []).status = 200 ∧
    (handleGoogle env orc [⟨"user", .str q⟩] []).events = [.rewrite q, .answer] := by
  refine ⟨?_, ?_, ?_, ?_, ?_, ?_⟩
  · simp [handleChatGPTToGemini, hg, ho, hm, hq]
  · simp [handlePerplexityToGemini, hg, hm, hq]
  · simp [handlePerplexityChatGPTToGemini, hg, ho, hm, hq]
  · simp [handleTavilyToGemini, hg, hm, hq]
  all_goals
    simp [handleGoogle, hg, uploadFilesToGeminiSDK, processMessagesForGoogleSDK,
      processMsgsGo, hconv, Except.map, hgem]

/-- Witness for C5 at a concrete blank-question request. -/
theorem empty_question_validation_witness :
    handleChatGPTToGemini envAll orcBase [⟨"user", .str " "⟩] [] =
      { status := 400, error := some "No question provided" } ∧
    handlePerplexityToGemini envAll orcBase [⟨"user", .str " "⟩] [] =
      { status := 400, error := some "No question provided" } ∧
    handlePerplexityChatGPTToGemini envAll orcBase [⟨"user", .str " "⟩] [] =
      { status := 400, error := some "No question provided" } ∧
    handleTavilyToGemini envAll orcBase [⟨"user", .str " "⟩] [] =
      { status := 400, error := some "No question provided" } ∧
    (handleGoogle envAll orcBase [⟨"user", .str " "⟩] []).status = 200 ∧
    (handleGoogle envAll orcBase [⟨"user", .str " "⟩] []).events =
      [.rewrite " ", .answer] :=
  empty_question_validation envAll orcBase [⟨"user", .str " "⟩] [] ⟨"user", .str " "⟩
    " " "PROMPT X" "Xin chao" rfl rfl rfl (by decide) (by decide) rfl
    (fun _ => rfl)

/-! ## C3: rewrite degradation -/

/-- C3 counterexample: in the perplexity-chatgpt-gemini workflow a
non-OK response from the ChatGPT rewrite call does not degrade — the
handler returns a 500 error envelope and never reaches the ANSWER
stage. -/
theorem pplx_chatgpt_rewrite_failure_is_fatal :
    (handlePerplexityChatGPTToGemini envAll orcBase [⟨"user", .str "hi ban"⟩] []).status
      = 500 ∧
    (handlePerplexityChatGPTToGemini envAll orcBase [⟨"user", .str "hi ban"⟩] []).error
      = some "Failed to get response from ChatGPT" ∧
    (handlePerplexityChatGPTToGemini envAll orcBase
      [⟨"user", .str "hi ban"⟩] []).events.count .answer = 0 := by
  decide

/-- C3 (amended): convertToPromptChatGPT (the rewrite step of
chatgpt-to-gemini and of the per-message rewrites of single) returns
its input unchanged on a non-OK response or missing/empty content, and
chatgpt-to-gemini then proceeds to the ANSWER stage with a success
envelope; in perplexity-chatgpt-gemini, by contrast, only missing/empty
content degrades to the original question — a non-OK response aborts
the workflow with a 500 error envelope before the ANSWER stage. -/
theorem rewrite_degradation :
    (∀ (ro : String → RewriteReply) s,
      (ro s = .httpErr ∨ ro s = .ok none ∨ ro s = .ok (some "")) →
      convertToPromptChatGPT ro s = .ok s) ∧
    (∀ env (orc : Oracles) messages files m t,
      env.googleKey = true → env.openaiKey = true →
      messages.getLast? = some m →
      (jsTrimS (extractQuestion m)).isEmpty = false →
      (orc.rewriteHttp (extractQuestion m) = .httpErr ∨
       orc.rewriteHttp (extractQuestion m) = .ok none ∨
       orc.rewriteHttp (extractQuestion m) = .ok (some "")) →
      (∀ x, orc.gemini x = .gok t) →
      (handleChatGPTToGemini env orc messages files).status = 200 ∧
      (handleChatGPTToGemini env orc messages files).stepTypes =
        ["chatgpt_prompt_generation", "gemini_response"] ∧
      (handleChatGPTToGemini env orc messages files).events =
        [.rewrite (extractQuestion m), .answer]) ∧
    (∀ env (orc : Oracles) messages files m a rs,
      env.googleKey = true → env.openaiKey = true →
      messages.getLast? = some m →
      (jsTrimS (extractQuestion m)).isEmpty = false →
      orc.perplexity (extractQuestion m) = .pok a rs →
      (∀ x, orc.refineHttp x = .httpErr) →
      (handlePerplexityChatGPTToGemini env orc messages files).status = 500 ∧
      (handlePerplexityChatGPTToGemini env orc messages files).error =
        some "Failed to get response from ChatGPT" ∧
      ∃ input, (handlePerplexityChatGPTToGemini env orc messages files).events =
        [.search (extractQuestion m), .rewrite input]) := by
  have hconv : ∀ (ro : String → RewriteReply) s,
      (ro s = .httpErr ∨ ro s = .ok none ∨ ro s = .ok (some "")) →
      convertToPromptChatGPT ro s = .ok s := by
    intro ro s h
    rcases h with h | h | h <;> (unfold convertToPromptChatGPT; rw [h])
    rfl
  refine ⟨hconv, ?_, ?_⟩
  · intro env orc messages files m t hg ho hm hq hfail hgem
    have := hconv orc.rewriteHttp (extractQuestion m) hfail
    refine ⟨?_, ?_, ?_⟩ <;>
      simp [handleChatGPTToGemini, hg, ho, hm, hq, this, hgem]
  · intro env orc messages files m a rs hg ho hm hq hp href
    refine ⟨?_, ?_,
      ⟨refineUserContent (pplxSearchContext orc.hostOf a rs) (extractQuestion m), ?_⟩⟩ <;>
      simp [handlePerplexityChatGPTToGemini, workflowCatch, hg, ho, hm, hq, hp, href] <;>
      rfl

/-- Witness for C3 at concrete requests: a failing rewrite in
chatgpt-to-gemini degrades and answers, a failing rewrite in
perplexity-chatgpt-gemini aborts with a 500. -/
theorem rewrite_degradation_witness :
    convertToPromptChatGPT (fun _ => .httpErr) "hi ban" = .ok "hi ban" ∧
    ((handleChatGPTToGemini envAll { orcBase with rewriteHttp := fun _ => .httpErr }
        [⟨"user", .str "hi ban"⟩] []).status = 200 ∧
     (handleChatGPTToGemini envAll { orcBase with rewriteHttp := fun _ => .httpErr }
        [⟨"user", .str "hi ban"⟩] []).stepTypes =
       ["chatgpt_prompt_generation", "gemini_response"] ∧
     (handleChatGPTToGemini envAll { orcBase with rewriteHttp := fun _ => .httpErr }
        [⟨"user", .str "hi ban"⟩] []).events = [.rewrite "hi ban", .answer]) ∧
    ((handlePerplexityChatGPTToGemini envAll orcBase
        [⟨"user", .str "hi ban"⟩] []).status = 500 ∧
     (handlePerplexityChatGPTToGemini envAll orcBase
        [⟨"user", .str "hi ban"⟩] []).error =
       some "Failed to get response from ChatGPT" ∧
     ∃ input, (handlePerplexityChatGPTToGemini envAll orcBase
        [⟨"user", .str "hi ban"⟩] []).events = [.search "hi ban", .rewrite input]) :=
  ⟨rewrite_degradation.1 (fun _ => .httpErr) "hi ban" (Or.inl rfl),
   rewrite_degradation.2.1 envAll { orcBase with rewriteHttp := fun _ => .httpErr }
     [⟨"user", .str "hi ban"⟩] [] ⟨"user", .str "hi ban"⟩ "Xin chao"
     rfl rfl rfl (by decide) (Or.inl rfl) (fun _ => rfl),
   rewrite_degradation.2.2 envAll orcBase [⟨"user", .str "hi ban"⟩] []
     ⟨"user", .str "hi ban"⟩ "" [] rfl rfl rfl (by decide) rfl (fun _ => rfl)⟩

/-! ## C2: search failure behavior -/

/-- C2 counterexample: in the tavily-to-gemini workflow a failed search
(the adapter returns null after an upstream error) does not halt the
pipeline — the handler proceeds to the ANSWER stage and returns a
success envelope, not a 502 error. -/
theorem tavily_search_failure_not_fatal :
    (handleTavilyToGemini envAll orcBase [⟨"user", .str "hi ban"⟩] []).status = 200 ∧
    (handleTavilyToGemini envAll orcBase [⟨"user", .str "hi ban"⟩] []).error = none ∧
    (handleTavilyToGemini envAll orcBase [⟨"user", .str "hi ban"⟩] []).events =
      [.search "hi ban", .answer] := by
  decide

/-- C2 (amended): in the two perplexity workflows a search-adapter
error halts the pipeline with a 502 error envelope whose trace contains
no stage entry and whose only provider invocation is the failed search;
in tavily-to-gemini a search failure is degraded instead — the answer
stage still runs on the unenhanced question and a success envelope is
returned. -/
theorem search_failure_behavior :
    (∀ env (orc : Oracles) messages files m ty emsg,
      env.googleKey = true → env.openaiKey = true →
      messages.getLast? = some m →
      (jsTrimS (extractQuestion m)).isEmpty = false →
      (∀ q', orc.perplexity q' = .perr ty emsg) →
      handlePerplexityToGemini env orc messages files =
        { status := 502, error := some (pplxErrorBody emsg),
          errorType := some "perplexity_search_error",
          events := [.search (extractQuestion m)] } ∧
      handlePerplexityChatGPTToGemini env orc messages files =
        { status := 502, error := some (pplxErrorBody emsg),
          errorType := some "perplexity_search_error",
          events := [.search (extractQuestion m)] }) ∧
    (∀ env (orc : Oracles) messages files m t,
      env.googleKey = true → env.tavilyKey = true →
      messages.getLast? = some m →
      (jsTrimS (extractQuestion m)).isEmpty = false →
      orc.tavily (extractQuestion m) = none →
      (∀ x, orc.gemini x = .gok t) →
      (handleTavilyToGemini env orc messages files).status = 200 ∧
      (handleTavilyToGemini env orc messages files).error = none ∧
      (handleTavilyToGemini env orc messages files).events =
        [.search (extractQuestion m), .answer]) := by
  constructor
  · intro env orc messages files m ty emsg hg ho hm hq hp
    constructor
    · simp [handlePerplexityToGemini, hg, hm, hq, hp]
    · simp [handlePerplexityChatGPTToGemini, hg, ho, hm, hq, hp]
  · intro env orc messages files m t hg htk hm hq ht hgem
    refine ⟨?_, ?_, ?_⟩ <;>
      simp [handleTavilyToGemini, searchWithTavily, hg, htk, hm, hq, ht, hgem]

/-- Witness for C2 at concrete requests: a Perplexity adapter error
yields the 502 halt, a Tavily failure degrades to a successful answer. -/
theorem search_failure_behavior_witness :
    (handlePerplexityToGemini envAll
        { orcBase with perplexity := fun _ => .perr "perplexity_api_error" "boom" }
        [⟨"user", .str "hi ban"⟩] [] =
      { status := 502, error := some (pplxErrorBody "boom"),
        errorType := some "perplexity_search_error",
        events := [.search "hi ban"] } ∧
     handlePerplexityChatGPTToGemini envAll
        { orcBase with perplexity := fun _ => .perr "perplexity_api_error" "boom" }
        [⟨"user", .str "hi ban"⟩] [] =
      { status := 502, error := some (pplxErrorBody "boom"),
        errorType := some "perplexity_search_error",
        events := [.search "hi ban"] }) ∧
    ((handleTavilyToGemini envAll orcBase [⟨"user", .str "hi ban"⟩] []).status = 200 ∧
     (handleTavilyToGemini envAll orcBase [⟨"user", .str "hi ban"⟩] []).error = none ∧
     (handleTavilyToGemini envAll orcBase [⟨"user", .str "hi ban"⟩] []).events =
       [.search "hi ban", .answer]) :=
  ⟨search_failure_behavior.1 envAll
     { orcBase with perplexity := fun _ => .perr "perplexity_api_error" "boom" }
     [⟨"user", .str "hi ban"⟩] [] ⟨"user", .str "hi ban"⟩
     "perplexity_api_error" "boom" rfl rfl rfl (by decide) (fun _ => rfl),
   search_failure_behavior.2 envAll orcBase [⟨"user", .str "hi ban"⟩] []
     ⟨"user", .str "hi ban"⟩ "Xin chao" rfl rfl rfl (by decide) rfl (fun _ => rfl)⟩

/-! ## C1: stage sequences -/

/-- Mapping of the reported trace `type` tags to the workflow table's
stage vocabulary. -/
def stageOfType (t : String) : String :=
  if t = "perplexity_search" ∨ t = "tavily_search" then "SEARCH"
  else if t = "chatgpt_prompt_generation" ∨ t = "chatgpt_refinement" then "REWRITE"
  else if t = "gemini_response" then "ANSWER"
  else "UNKNOWN"

/-- C1 counterexample: a `single` request does not run only ANSWER —
the executed adapter sequence is REWRITE (ChatGPT per-message rewrite)
then ANSWER, and the success envelope reports no per-stage trace
fields at all (no step1/step2/steps). -/
theorem single_stage_sequence_deviates :
    (POST envAll orcBase "gemini-1.5-pro" "single"
      [⟨"user", .str "hi ban"⟩] []).events = [.rewrite "hi ban", .answer] ∧
    (POST envAll orcBase "gemini-1.5-pro" "single"
      [⟨"user", .str "hi ban"⟩] []).stepTypes = [] ∧
    (POST envAll orcBase "gemini-1.5-pro" "single"
      [⟨"user", .str "hi ban"⟩] []).status = 200 := by
  decide

/-- C1 (amended): on success paths the four multi-stage workflows
execute and report exactly the table's stage sequences —
chatgpt-to-gemini REWRITE→ANSWER, perplexity-to-gemini and
tavily-to-gemini SEARCH→ANSWER, perplexity-chatgpt-gemini
SEARCH→REWRITE→ANSWER.  The `single` workflow deviates from the table:
it reports no per-stage trace fields and it executes a ChatGPT REWRITE
call for the string-content message before the ANSWER call, rather than
only ANSWER. -/
theorem stage_sequences :
    (∀ env (orc : Oracles) messages files m p t,
      env.googleKey = true → env.openaiKey = true →
      messages.getLast? = some m →
      (jsTrimS (extractQuestion m)).isEmpty = false →
      convertToPromptChatGPT orc.rewriteHttp (extractQuestion m) = .ok p →
      (∀ x, orc.gemini x = .gok t) →
      (handleChatGPTToGemini env orc messages files).stepTypes =
        ["chatgpt_prompt_generation", "gemini_response"] ∧
      (handleChatGPTToGemini env orc messages files).stepTypes.map stageOfType =
        ["REWRITE", "ANSWER"] ∧
      (handleChatGPTToGemini env orc messages files).events =
        [.rewrite (extractQuestion m), .answer]) ∧
    (∀ env (orc : Oracles) messages files m a rs t,
      env.googleKey = true →
      messages.getLast? = some m →
      (jsTrimS (extractQuestion m)).isEmpty = false →
      orc.perplexity (extractQuestion m) = .pok a rs →
      (∀ x, orc.gemini x = .gok t) →
      (handlePerplexityToGemini env orc messages files).stepTypes =
        ["perplexity_search", "gemini_response"] ∧
      (handlePerplexityToGemini env orc messages files).stepTypes.map stageOfType =
        ["SEARCH", "ANSWER"] ∧
      (handlePerplexityToGemini env orc messages files).events =
        [.search (extractQuestion m), .answer]) ∧
    (∀ env (orc : Oracles) messages files m a rs p t,
      env.googleKey = true → env.openaiKey = true →
      messages.getLast? = some m →
      (jsTrimS (extractQuestion m)).isEmpty = false →
      orc.perplexity (extractQuestion m) = .pok a rs →
      (∀ x, orc.refineHttp x = .ok (some p)) → p.isEmpty = false →
      (∀ x, orc.gemini x = .gok t) →
      (handlePerplexityChatGPTToGemini env orc messages files).stepTypes =
        ["perplexity_search", "chatgpt_refinement", "gemini_response"] ∧
      (handlePerplexityChatGPTToGemini env orc messages files).stepTypes.map stageOfType =
        ["SEARCH", "REWRITE", "ANSWER"] ∧
      (handlePerplexityChatGPTToGemini env orc messages files).events =
        [.search (extractQuestion m),
         .rewrite (refineUserContent (pplxSearchContext orc.hostOf a rs)
           (extractQuestion m)), .answer]) ∧
    (∀ env (orc : Oracles) messages files m d t,
      env.googleKey = true → env.tavilyKey = true →
      messages.getLast? = some m →
      (jsTrimS (extractQuestion m)).isEmpty = false →
      orc.tavily (extractQuestion m) = some d →
      (∀ x, orc.gemini x = .gok t) →
      (handleTavilyToGemini env orc messages files).stepTypes =
        ["tavily_search", "gemini_response"] ∧
      (handleTavilyToGemini env orc messages files).stepTypes.map stageOfType =
        ["SEARCH", "ANSWER"] ∧
      (handleTavilyToGemini env orc messages files).events =
        [.search (extractQuestion m), .answer]) ∧
    (∀ env (orc : Oracles) q p t,
      env.googleKey = true →
      convertToPromptChatGPT orc.rewriteHttp q = .ok p →
      (∀ x, orc.gemini x = .gok t) →
      (handleGoogle env orc [⟨"user", .str q⟩] []).stepTypes = [] ∧
      (handleGoogle env orc [⟨"user", .str q⟩] []).events = [.rewrite q, .answer]) := by
  refine ⟨?_, ?_, ?_, ?_, ?_⟩
  · intro env orc messages files m p t hg ho hm hq hconv hgem
    refine ⟨?_, ?_, ?_⟩ <;>
      simp [handleChatGPTToGemini, hg, ho, hm, hq, hconv, hgem, stageOfType]
  · intro env orc messages files m a rs t hg hm hq hp hgem
    refine ⟨?_, ?_, ?_⟩ <;>
      simp [handlePerplexityToGemini, hg, hm, hq, hp, hgem, stageOfType]
  · intro env orc messages files m a rs p t hg ho hm hq hp href hpne hgem
    refine ⟨?_, ?_, ?_⟩ <;>
      simp [handlePerplexityChatGPTToGemini, hg, ho, hm, hq, hp, href, hpne, hgem,
        stageOfType]
  · intro env orc messages files m d t hg htk hm hq ht hgem
    refine ⟨?_, ?_, ?_⟩ <;>
      simp [handleTavilyToGemini, searchWithTavily, hg, htk, hm, hq, ht, hgem,
        stageOfType]
  · intro env orc q p t hg hconv hgem
    refine ⟨?_, ?_⟩ <;>
      simp [handleGoogle, hg, uploadFilesToGeminiSDK, processMessagesForGoogleSDK,
        processMsgsGo, hconv, Except.map, hgem]

/-- Witness for C1 at concrete success-path requests for all five
workflows. -/
theorem stage_sequences_witness :
    ((handleChatGPTToGemini envAll orcBase [⟨"user", .str "hi ban"⟩] []).stepTypes =
        ["chatgpt_prompt_generation", "gemini_response"] ∧
     (handleChatGPTToGemini envAll orcBase
        [⟨"user", .str "hi ban"⟩] []).stepTypes.map stageOfType =
        ["REWRITE", "ANSWER"] ∧
     (handleChatGPTToGemini envAll orcBase [⟨"user", .str "hi ban"⟩] []).events =
        [.rewrite "hi ban", .answer]) ∧
    ((handlePerplexityToGemini envAll orcBase [⟨"user", .str "hi ban"⟩] []).stepTypes =
        ["perplexity_search", "gemini_response"] ∧
     (handlePerplexityToGemini envAll orcBase
        [⟨"user", .str "hi ban"⟩] []).stepTypes.map stageOfType =
        ["SEARCH", "ANSWER"] ∧
     (handlePerplexityToGemini envAll orcBase [⟨"user", .str "hi ban"⟩] []).events =
        [.search "hi ban", .answer]) ∧
    ((handlePerplexityChatGPTToGemini envAll
        { orcBase with refineHttp := fun _ => .ok (some "PROMPT Y") }
        [⟨"user", .str "hi ban"⟩] []).stepTypes =
        ["perplexity_search", "chatgpt_refinement", "gemini_response"] ∧
     (handlePerplexityChatGPTToGemini envAll
        { orcBase with refineHttp := fun _ => .ok (some "PROMPT Y") }
        [⟨"user", .str "hi ban"⟩] []).stepTypes.map stageOfType =
        ["SEARCH", "REWRITE", "ANSWER"] ∧
     (handlePerplexityChatGPTToGemini envAll
        { orcBase with refineHttp := fun _ => .ok (some "PROMPT Y") }
        [⟨"user", .str "hi ban"⟩] []).events =
        [.search "hi ban",
         .rewrite (refineUserContent
           (pplxSearchContext
             ({ orcBase with refineHttp := fun _ => .ok (some "PROMPT Y")} :
               Oracles).hostOf "" []) "hi ban"), .answer]) ∧
    ((handleTavilyToGemini envAll { orcBase with tavily := fun _ => some ⟨"tom tat", []⟩ }
        [⟨"user", .str "hi ban"⟩] []).stepTypes =
        ["tavily_search", "gemini_response"] ∧
     (handleTavilyToGemini envAll { orcBase with tavily := fun _ => some ⟨"tom tat", []⟩ }
        [⟨"user", .str "hi ban"⟩] []).stepTypes.map stageOfType =
        ["SEARCH", "ANSWER"] ∧
     (handleTavilyToGemini envAll { orcBase with tavily := fun _ => some ⟨"tom tat", []⟩ }
        [⟨"user", .str "hi ban"⟩] []).events = [.search "hi ban", .answer]) ∧
    ((handleGoogle envAll orcBase [⟨"user", .str "hi ban"⟩] []).stepTypes = [] ∧
     (handleGoogle envAll orcBase [⟨"user", .str "hi ban"⟩] []).events =
        [.rewrite "hi ban", .answer]) :=
  ⟨stage_sequences.1 envAll orcBase [⟨"user", .str "hi ban"⟩] []
     ⟨"user", .str "hi ban"⟩ "PROMPT X" "Xin chao" rfl rfl rfl (by decide) rfl
     (fun _ => rfl),
   stage_sequences.2.1 envAll orcBase [⟨"user", .str "hi ban"⟩] []
     ⟨"user", .str "hi ban"⟩ "" [] "Xin chao" rfl rfl (by decide) rfl (fun _ => rfl),
   stage_sequences.2.2.1 envAll { orcBase with refineHttp := fun _ => .ok (some "PROMPT Y") }
     [⟨"user", .str "hi ban"⟩] [] ⟨"user", .str "hi ban"⟩ "" [] "PROMPT Y" "Xin chao"
     rfl rfl rfl (by decide) rfl (fun _ => rfl) (by decide) (fun _ => rfl),
   stage_sequences.2.2.2.1 envAll { orcBase with tavily := fun _ => some ⟨"tom tat", []⟩ }
     [⟨"user", .str "hi ban"⟩] [] ⟨"user", .str "hi ban"⟩ ⟨"tom tat", []⟩ "Xin chao"
     rfl rfl rfl (by decide) rfl (fun _ => rfl),
   stage_sequences.2.2.2.2 envAll orcBase "hi ban" "PROMPT X" "Xin chao" rfl rfl
     (fun _ => rfl)⟩

/-! ## Lemmas about joinSep -/

theorem data_append (a b : String) : (a ++ b).data = a.data ++ b.data := rfl

theorem infix_append_left (x l r : List Char) (h : x <:+: r) : x <:+: l ++ r :=
  h.trans (List.suffix_append l r).isInfix

theorem joinSep_foldl_sub (sep : String) (xs : List String) (a : String) :
    a.data <:+: (xs.foldl (fun acc x => acc ++ sep ++ x) a).data := by
  induction xs generalizing a with
  | nil => exact List.infix_refl _
  | cons y ys ih =>
    refine List.IsInfix.trans ?_ (ih (a ++ sep ++ y))
    show a.data <:+: a.data ++ sep.data ++ y.data
    simpa [List.append_assoc] using
      (List.prefix_append a.data (sep.data ++ y.data)).isInfix

theorem foldl_mem_infix (sep : String) (ps : List String) (a x : String)
    (hx : x ∈ ps) :
    x.data <:+: (ps.foldl (fun acc y => acc ++ sep ++ y) a).data := by
  induction ps generalizing a with
  | nil => cases hx
  | cons y ys ih =>
    rcases List.mem_cons.mp hx with rfl | h2
    · refine List.IsInfix.trans ?_ (joinSep_foldl_sub sep ys (a ++ sep ++ x))
      show x.data <:+: a.data ++ sep.data ++ x.data
      simpa [List.append_assoc] using
        (List.suffix_append (a.data ++ sep.data) x.data).isInfix
    · exact ih (a ++ sep ++ y) h2

/-- A member of the joined list occurs verbatim in the join. -/
theorem mem_infix_joinSep (sep : String) (l : List String) (x : String)
    (hx : x ∈ l) : x.data <:+: (joinSep sep l).data := by
  cases l with
  | nil => cases hx
  | cons p ps =>
    rcases List.mem_cons.mp hx with rfl | h2
    · exact joinSep_foldl_sub sep ps x
    · exact foldl_mem_infix sep ps p x h2

/-- The last element of the joined list is a suffix of the join. -/
theorem joinSep_last_suffix (sep : String) (l : List String) (s : String) :
    s.data <:+ (joinSep sep (l ++ [s])).data := by
  cases l with
  | nil => exact List.suffix_refl _
  | cons p ps =>
    show s.data <:+
      ((ps ++ [s]).foldl (fun acc x => acc ++ sep ++ x) p).data
    rw [List.foldl_append]
    show s.data <:+ ((ps.foldl (fun acc x => acc ++ sep ++ x) p) ++ sep ++ s).data
    show s.data <:+
      (ps.foldl (fun acc x => acc ++ sep ++ x) p).data ++ sep.data ++ s.data
    simpa [List.append_assoc] using
      List.suffix_append
        ((ps.foldl (fun acc x => acc ++ sep ++ x) p).data ++ sep.data) s.data

/-! ## C9: summary-only search responses -/

/-- C9 counterexample: in the tavily-to-gemini workflow, a search
response carrying a non-empty summary but an empty result list is
treated as an empty search — the enhanced prompt is the bare question
and the summary text is not composed into it. -/
theorem tavily_summary_only_not_composed :
    tavilyEnhancedPrompt (some ⟨"GIA VANG 9999", []⟩) "gia vang hom nay" =
      "gia vang hom nay" ∧
    strContains (tavilyEnhancedPrompt (some ⟨"GIA VANG 9999", []⟩) "gia vang hom nay")
      "GIA VANG 9999" = false := by
  decide

/-- C9 (amended): in the perplexity workflows a non-empty (trimmed)
search summary is always composed into the next-stage prompt, even when
the result list is empty; in tavily-to-gemini the summary is composed
only when the result list is non-empty — with an empty result list the
prompt is the bare question, summary or not. -/
theorem infix_append_right (x l r : List Char) (h : x <:+: l) : x <:+: l ++ r :=
  h.trans (List.prefix_append l r).isInfix

theorem isEmpty_false_of_ne_nil (s : String) (h : s.data ≠ []) : s.isEmpty = false := by
  rw [Bool.eq_false_iff]
  intro hc
  have h2 := @String.isEmpty_iff s
  exact h (congrArg String.data (h2.mp hc))

theorem summary_composition :
    (∀ (hostOf : String → Option String) ctx q answer results,
      (jsTrimS answer).isEmpty = false →
      (jsTrimS answer).data <:+:
        (pplxEnhancedPrompt hostOf ctx q answer results).data) ∧
    (∀ (hostOf : String → Option String) a results,
      (jsTrimS a).isEmpty = false →
      (jsTrimS a).data <:+: (pplxSearchContext hostOf a results).data) ∧
    (∀ (d : TavilyData) q, d.results = [] →
      tavilyEnhancedPrompt (some d) q = q) := by
  refine ⟨?_, ?_, ?_⟩
  · intro hostOf ctx q answer results hne
    unfold pplxEnhancedPrompt
    simp only [hne, Bool.not_false, if_true]
    have h1 : (jsTrimS answer).data <:+:
        ("TÓM TẮT TỪ NGUỒN TÌM KIẾM:\n" ++ jsTrimS answer).data :=
      (List.suffix_append ("TÓM TẮT TỪ NGUỒN TÌM KIẾM:\n").data
        (jsTrimS answer).data).isInfix
    have h2 : (jsTrimS answer).data <:+:
        (joinSep "\n\n" (["TÓM TẮT TỪ NGUỒN TÌM KIẾM:\n" ++ jsTrimS answer] ++
          (if 0 < results.length then
            ["THAM KHAO:\n" ++
              if 0 < results.length then referencesTextOf hostOf results else ""]
           else []))).data :=
      h1.trans (mem_infix_joinSep "\n\n" _ _
        (List.mem_append_left _ (List.mem_singleton.mpr rfl)))
    have h3 : (jsTrimS answer).data <:+:
        ("Dữ liệu tìm kiếm từ Perplexity:\n" ++
          joinSep "\n\n" (["TÓM TẮT TỪ NGUỒN TÌM KIẾM:\n" ++ jsTrimS answer] ++
            (if 0 < results.length then
              ["THAM KHAO:\n" ++
                if 0 < results.length then referencesTextOf hostOf results else ""]
             else []))).data :=
      infix_append_left _ _ _ h2
    refine h3.trans (mem_infix_joinSep "\n\n" _ _ ?_)
    simp
  · intro hostOf a results hne
    unfold pplxSearchContext
    simp only [hne, Bool.not_false, if_true]
    have hdata : ("Summary:\n" ++ jsTrimS a).data =
        'S' :: ("ummary:\n".data ++ (jsTrimS a).data) := rfl
    have hnn : ("Summary:\n" ++ jsTrimS a).data ≠ [] := by
      rw [hdata]; exact List.cons_ne_nil _ _
    have h1 : (jsTrimS a).data <:+: ("Summary:\n" ++ jsTrimS a).data :=
      (List.suffix_append ("Summary:\n").data (jsTrimS a).data).isInfix
    have hmem : ("Summary:\n" ++ jsTrimS a) ∈
        ["Summary:\n" ++ jsTrimS a] ++
          (if 0 < results.length then
            ["References:\n" ++
              if 0 < results.length then referencesTextOf hostOf results else ""]
           else []) := List.mem_append_left _ (List.mem_singleton.mpr rfl)
    have h2 := h1.trans (mem_infix_joinSep "\n\n" _ _ hmem)
    have hnn3 : (joinSep "\n\n"
        (["Summary:\n" ++ jsTrimS a] ++
          (if 0 < results.length then
            ["References:\n" ++
              if 0 < results.length then referencesTextOf hostOf results else ""]
           else []))).data ≠ [] := by
      intro hc
      have hinf := mem_infix_joinSep "\n\n" _ _ hmem
      rw [hc] at hinf
      exact hnn (List.eq_nil_of_infix_nil hinf)
    rw [isEmpty_false_of_ne_nil _ hnn3]
    simpa using h2
  · intro d q h
    obtain ⟨ans, res⟩ := d
    have h2 : res = [] := h
    subst h2
    rfl

/-- Witness for C9 at a concrete summary-only search response. -/
theorem summary_composition_witness :
    ((jsTrimS "tom tat quan trong").data <:+:
      (pplxEnhancedPrompt (fun _ => none) "" "gia vang?" "tom tat quan trong" []).data) ∧
    ((jsTrimS "tom tat quan trong").data <:+:
      (pplxSearchContext (fun _ => none) "tom tat quan trong" []).data) ∧
    tavilyEnhancedPrompt (some ⟨"tom tat quan trong", []⟩) "gia vang?" = "gia vang?" :=
  ⟨summary_composition.1 (fun _ => none) "" "gia vang?" "tom tat quan trong" []
     (by decide),
   summary_composition.2.1 (fun _ => none) "tom tat quan trong" [] (by decide),
   summary_composition.2.2 ⟨"tom tat quan trong", []⟩ "gia vang?" rfl⟩

/-! ## C8: reference-section presence -/

/-- C8 counterexample: a successful perplexity-to-gemini run whose
citation list is empty returns an answer with no reference section at
all — no `Nguồn tham khảo` placeholder is appended. -/
theorem pplx_empty_citations_section_omitted :
    (handlePerplexityToGemini envAll orcBase [⟨"user", .str "hi ban"⟩] []).status =
      200 ∧
    (handlePerplexityToGemini envAll orcBase [⟨"user", .str "hi ban"⟩] []).content =
      some "Xin chao" ∧
    strContains
      ((handlePerplexityToGemini envAll orcBase
        [⟨"user", .str "hi ban"⟩] []).content.getD "")
      "Nguồn tham khảo" = false := by
  decide

/-- C8 (amended): the single/Google handler always appends a sources
section — the explicit `(không có)` placeholder when there are no
uploaded files — as the final suffix of the answer text; the perplexity
handlers render the reference block only when at least one reference
entry exists, and with an empty citation list the section is omitted
entirely (the content is just the sanitized, reference-stripped answer). -/
theorem reference_section_presence :
    sourcesSectionOf [] = "Nguồn tham khảo: (không có)" ∧
    (∀ env (orc : Oracles) messages files cs ps t,
      env.googleKey = true →
      (processMessagesForGoogleSDK orc.rewriteHttp messages files
        (uploadFilesToGeminiSDK env orc files).1).2 = .ok (cs, ps) →
      (∀ x, orc.gemini x = .gok t) →
      (handleGoogle env orc messages files).status = 200 ∧
      ∃ txt, (handleGoogle env orc messages files).content = some txt ∧
        (sourcesSectionOf
          ((uploadFilesToGeminiSDK env orc files).1.take MAX_REFERENCES)).data
          <:+ txt.data) ∧
    (∀ env (orc : Oracles) messages files m a t,
      env.googleKey = true →
      messages.getLast? = some m →
      (jsTrimS (extractQuestion m)).isEmpty = false →
      orc.perplexity (extractQuestion m) = .pok a [] →
      (∀ x, orc.gemini x = .gok t) →
      (handlePerplexityToGemini env orc messages files).content =
        some (stripReferenceSection (sanitize t))) := by
  refine ⟨rfl, ?_, ?_⟩
  · intro env orc messages files cs ps t hg hpm hgem
    refine ⟨?_, ?_⟩
    · simp [handleGoogle, hg, hpm, hgem]
    · refine ⟨joinSep "\n\n"
        ((if (stripReferenceSection (sanitize t)).isEmpty then []
          else [stripReferenceSection (sanitize t)]) ++
         [sourcesSectionOf
           ((uploadFilesToGeminiSDK env orc files).1.take MAX_REFERENCES)]),
        ?_, ?_⟩
      · simp [handleGoogle, hg, hpm, hgem]
      · exact joinSep_last_suffix "\n\n" _ _
  · intro env orc messages files m a t hg hm hq hp hgem
    have hjs : ∀ x : String, joinSep "\n\n" [x] = x := fun x => rfl
    have h0 : ("" : String).isEmpty = true := rfl
    by_cases hrt : (stripReferenceSection (sanitize t)).isEmpty = true
    · simp [handlePerplexityToGemini, hg, hm, hq, hp, hgem, hrt, h0]
    · simp [handlePerplexityToGemini, hg, hm, hq, hp, hgem, hrt, hjs, h0]

/-- Witness for C8 at a concrete single-workflow request with no files
and a concrete perplexity request with an empty citation list. -/
theorem reference_section_presence_witness :
    sourcesSectionOf [] = "Nguồn tham khảo: (không có)" ∧
    ((handleGoogle envAll orcBase [⟨"user", .str "hi ban"⟩] []).status = 200 ∧
     ∃ txt, (handleGoogle envAll orcBase [⟨"user", .str "hi ban"⟩] []).content =
        some txt ∧
       (sourcesSectionOf
         ((uploadFilesToGeminiSDK envAll orcBase []).1.take MAX_REFERENCES)).data
         <:+ txt.data) ∧
    (handlePerplexityToGemini envAll orcBase [⟨"user", .str "hi ban"⟩] []).content =
      some (stripReferenceSection (sanitize "Xin chao")) :=
  ⟨reference_section_presence.1,
   reference_section_presence.2.1 envAll orcBase [⟨"user", .str "hi ban"⟩] []
     [⟨"user", [.text "PROMPT X"]⟩] [⟨CONTENT_SYSTEM, "hi ban", "PROMPT X"⟩]
     "Xin chao" rfl rfl (fun _ => rfl),
   reference_section_presence.2.2 envAll orcBase [⟨"user", .str "hi ban"⟩] []
     ⟨"user", .str "hi ban"⟩ "" "Xin chao" rfl rfl (by decide) rfl (fun _ => rfl)⟩

/-! ## C4: sanitizer idempotence

The cleanup chain is not idempotent (heading and list-marker removal
can expose a fresh marker at the line start, link removal can expose a
fresh link).  It is idempotent on text containing none of the markup
characters the chain strips; the lemmas below establish that the first
six passes are the identity on such text and that the newline collapse
and the trim are idempotent. -/

/-- Identity of a delimiter pass when the delimiter head never occurs. -/
theorem replDelimGo_id (d0 : Char) (ds : List Char) :
    ∀ (fuel : Nat) (cs : List Char), d0 ∉ cs → replDelimGo (d0 :: ds) fuel cs = cs := by
  intro fuel
  induction fuel with
  | zero => intro cs _; rfl
  | succ n ih =>
    intro cs h
    cases cs with
    | nil => rfl
    | cons c rest =>
      have hc : ¬(d0 = c) := fun he => h (he ▸ List.mem_cons_self c rest)
      have hpre : (d0 :: ds).isPrefixOf (c :: rest) = false := by
        simp [List.isPrefixOf]
        intro he
        exact absurd he hc
      rw [replDelimGo, if_neg (by simp [hpre])]
      exact congrArg (c :: ·) (ih rest (fun hm => h (List.mem_cons_of_mem c hm)))

/-- Identity of the heading pass when `#` never occurs. -/
theorem rmHeadingsGo_id :
    ∀ (fuel : Nat) (b : Bool) (cs : List Char), '#' ∉ cs →
      rmHeadingsGo fuel b cs = cs := by
  intro fuel
  induction fuel with
  | zero => intro b cs _; rfl
  | succ n ih =>
    intro b cs h
    cases cs with
    | nil => rfl
    | cons c rest =>
      have hc : ¬(c = '#') := fun he => h (he ▸ List.mem_cons_self c rest)
      rw [rmHeadingsGo, if_neg (fun hand => hc hand.2)]
      exact congrArg (c :: ·) (ih _ rest (fun hm => h (List.mem_cons_of_mem c hm)))

/-- Identity of the list-marker pass when `-`, `*`, `+` never occur. -/
theorem rmListMarksGo_id :
    ∀ (fuel : Nat) (b : Bool) (cs : List Char),
      '-' ∉ cs → '*' ∉ cs → '+' ∉ cs → rmListMarksGo fuel b cs = cs := by
  intro fuel
  induction fuel with
  | zero => intro b cs _ _ _; rfl
  | succ n ih =>
    intro b cs h1 h2 h3
    cases cs with
    | nil => rfl
    | cons c rest =>
      have hc : ¬(c = '-' ∨ c = '*' ∨ c = '+') := by
        rintro (he | he | he)
        · exact h1 (he ▸ List.mem_cons_self c rest)
        · exact h2 (he ▸ List.mem_cons_self c rest)
        · exact h3 (he ▸ List.mem_cons_self c rest)
      have hcond : ¬(b = true ∧ (c = '-' ∨ c = '*' ∨ c = '+')) := fun hand => hc hand.2
      simp only [rmListMarksGo]
      rw [if_neg hcond]
      exact congrArg (c :: ·)
        (ih _ rest (fun hm => h1 (List.mem_cons_of_mem c hm))
          (fun hm => h2 (List.mem_cons_of_mem c hm))
          (fun hm => h3 (List.mem_cons_of_mem c hm)))

/-- Identity of the link pass when `[` never occurs. -/
theorem rmLinksGo_id :
    ∀ (fuel : Nat) (cs : List Char), '[' ∉ cs → rmLinksGo fuel cs = cs := by
  intro fuel
  induction fuel with
  | zero => intro cs _; rfl
  | succ n ih =>
    intro cs h
    cases cs with
    | nil => rfl
    | cons c rest =>
      have hc : ¬(c = '[') := fun he => h (he ▸ List.mem_cons_self c rest)
      rw [rmLinksGo, if_neg hc]
      exact congrArg (c :: ·) (ih rest (fun hm => h (List.mem_cons_of_mem c hm)))

/-- Whether a character list contains three consecutive `\n`. -/
def hasTriple : List Char → Bool
  | a :: b :: c :: rest => (a = '\n' && b = '\n' && c = '\n') || hasTriple (b :: c :: rest)
  | _ => false

theorem hasTriple_tail (a : Char) (l : List Char) (h : hasTriple (a :: l) = false) :
    hasTriple l = false := by
  cases l with
  | nil => rfl
  | cons b l2 =>
    cases l2 with
    | nil => rfl
    | cons c l3 =>
      rw [hasTriple] at h
      exact (Bool.or_eq_false_iff.mp h).2

theorem hasTriple_cons_of_ne (a : Char) (l : List Char) (ha : ¬(a = '\n'))
    (h : hasTriple l = false) : hasTriple (a :: l) = false := by
  cases l with
  | nil => rfl
  | cons b l2 =>
    cases l2 with
    | nil => rfl
    | cons c l3 => simp [hasTriple, ha, h]

theorem hasTriple_nl_cons (l : List Char) (hl : l.head? ≠ some '\n')
    (h : hasTriple l = false) : hasTriple ('\n' :: l) = false := by
  cases l with
  | nil => rfl
  | cons b l2 =>
    have hb : ¬(b = '\n') := fun he => hl (by rw [he]; rfl)
    cases l2 with
    | nil => rfl
    | cons c l3 => simp [hasTriple, hb, h]

theorem hasTriple_nl_nl_cons (l : List Char) (hl : l.head? ≠ some '\n')
    (h : hasTriple l = false) : hasTriple ('\n' :: '\n' :: l) = false := by
  cases l with
  | nil => rfl
  | cons b l2 =>
    have hb : ¬(b = '\n') := fun he => hl (by rw [he]; rfl)
    have h2 : hasTriple ('\n' :: b :: l2) = false :=
      hasTriple_nl_cons (b :: l2) hl h
    rw [hasTriple]
    simp [hb, h2]

theorem hasTriple_dropWhile (p : Char → Bool) (l : List Char)
    (h : hasTriple l = false) : hasTriple (l.dropWhile p) = false := by
  induction l with
  | nil => simpa using h
  | cons a l ih =>
    rw [List.dropWhile_cons]
    by_cases hp : p a = true
    · simp only [hp, if_true]
      exact ih (hasTriple_tail a l h)
    · simp only [hp, if_false]
      exact h

theorem hasTriple_append_right (l t : List Char) (h : hasTriple l = true) :
    hasTriple (l ++ t) = true := by
  induction l with
  | nil => simp [hasTriple] at h
  | cons a l ih =>
    cases l with
    | nil => simp [hasTriple] at h
    | cons b l2 =>
      cases l2 with
      | nil => simp [hasTriple] at h
      | cons c l3 =>
        rw [hasTriple] at h
        rcases Bool.or_eq_true_iff.mp h with hw | hr
        · show hasTriple (a :: b :: c :: (l3 ++ t)) = true
          rw [hasTriple, hw]
          rfl
        · have := ih hr
          show hasTriple (a :: b :: c :: (l3 ++ t)) = true
          rw [hasTriple]
          rw [show (b :: c :: l3) ++ t = b :: c :: (l3 ++ t) from rfl] at this
          rw [this]
          simp

theorem hasTriple_suffix_false (s l : List Char) (h : hasTriple (s ++ l) = false) :
    hasTriple l = false := by
  induction s with
  | nil => simpa using h
  | cons a s ih => exact ih (hasTriple_tail a (s ++ l) h)

theorem hasTriple_prefix_false (l t : List Char) (h : hasTriple (l ++ t) = false) :
    hasTriple l = false := by
  by_contra hc
  rw [hasTriple_append_right l t (Bool.of_not_eq_false hc)] at h
  cases h

/-- A character surviving the newline collapse came from the input. -/
theorem collapse_subset :
    ∀ (fuel : Nat) (l : List Char) (x : Char), x ∈ collapseNlGo fuel l → x ∈ l := by
  intro fuel
  induction fuel with
  | zero => intro l x hx; exact hx
  | succ n ih =>
    intro l x hx
    cases l with
    | nil => cases hx
    | cons c rest =>
      by_cases hc : c = '\n'
      · subst hc
        rw [collapseNlGo, if_pos rfl] at hx
        rcases List.mem_append.mp hx with hb | ha
        · have hxn : x = '\n' := by
            by_cases hk : (rest.takeWhile (· = '\n')).length + 1 ≥ 3
            · rw [if_pos hk] at hb
              rcases List.mem_cons.mp hb with he | h2
              · exact he
              · rcases List.mem_cons.mp h2 with he2 | h3
                · exact he2
                · cases h3
            · rw [if_neg hk] at hb
              rcases List.mem_cons.mp hb with he | hm
              · exact he
              · simpa using List.mem_takeWhile_imp hm
          rw [hxn]
          exact List.mem_cons_self '\n' rest
        · exact List.mem_cons_of_mem '\n'
            ((List.dropWhile_suffix (· = '\n')).sublist.subset (ih _ x ha))
      · rw [collapseNlGo, if_neg hc] at hx
        rcases List.mem_cons.mp hx with he | hm
        · exact he ▸ List.mem_cons_self c rest
        · exact List.mem_cons_of_mem c (ih rest x hm)

/-- The collapse does not change the head when it is not a newline. -/
theorem collapse_head (fuel : Nat) (l : List Char) (h : l.head? ≠ some '\n') :
    (collapseNlGo fuel l).head? = l.head? := by
  cases fuel with
  | zero => rfl
  | succ n =>
    cases l with
    | nil => rfl
    | cons c rest =>
      have hc : ¬(c = '\n') := fun he => h (by rw [he]; rfl)
      rw [collapseNlGo, if_neg hc]
      rfl

/-- The head of a `dropWhile` fails its predicate. -/
theorem head_dropWhile_not (p : Char → Bool) :
    ∀ (l : List Char) (b : Char), (l.dropWhile p).head? = some b → p b = false := by
  intro l
  induction l with
  | nil => intro b h; cases h
  | cons a l ih =>
    intro b h
    rw [List.dropWhile_cons] at h
    by_cases hp : p a = true
    · rw [if_pos hp] at h
      exact ih b h
    · rw [if_neg hp] at h
      cases h
      exact Bool.eq_false_iff.mpr hp

/-- The output of the newline collapse has no triple newline. -/
theorem collapse_noTriple :
    ∀ (fuel : Nat) (l : List Char), l.length ≤ fuel →
      hasTriple (collapseNlGo fuel l) = false := by
  intro fuel
  induction fuel with
  | zero =>
    intro l h
    rw [List.length_eq_zero.mp (Nat.le_zero.mp h)]
    rfl
  | succ n ih =>
    intro l hlen
    cases l with
    | nil => rfl
    | cons c rest =>
      have hrest : rest.length ≤ n := by simpa using hlen
      by_cases hc : c = '\n'
      · subst hc
        rw [collapseNlGo, if_pos rfl]
        show hasTriple
          ((if (rest.takeWhile (· = '\n')).length + 1 ≥ 3 then ['\n', '\n']
            else '\n' :: rest.takeWhile (· = '\n')) ++
           collapseNlGo n (rest.dropWhile (· = '\n'))) = false
        have hafter : (rest.dropWhile (· = '\n')).length ≤ n :=
          le_trans (List.Sublist.length_le
            (List.IsSuffix.sublist (List.dropWhile_suffix (· = '\n')))) hrest
        have h1 := ih (rest.dropWhile (· = '\n')) hafter
        have hhead : (rest.dropWhile (· = '\n')).head? ≠ some '\n' := by
          intro hh
          have := head_dropWhile_not (· = '\n') rest '\n' hh
          simp at this
        have hchead : (collapseNlGo n (rest.dropWhile (· = '\n'))).head? ≠ some '\n' := by
          rw [collapse_head n _ hhead]
          exact hhead
        by_cases hk : (rest.takeWhile (· = '\n')).length + 1 ≥ 3
        · rw [if_pos hk]
          exact hasTriple_nl_nl_cons _ hchead h1
        · rw [if_neg hk]
          have hrun : (rest.takeWhile (· = '\n')).length ≤ 1 := by omega
          cases hr : rest.takeWhile (· = '\n') with
          | nil => exact hasTriple_nl_cons _ hchead h1
          | cons r rs =>
            cases rs with
            | nil =>
              have hrn : r = '\n' := by
                have : r ∈ rest.takeWhile (· = '\n') := by
                  rw [hr]; exact List.mem_cons_self r []
                simpa using List.mem_takeWhile_imp this
              rw [hrn]
              exact hasTriple_nl_nl_cons _ hchead h1
            | cons r2 rs2 =>
              rw [hr] at hrun
              simp at hrun
      · rw [collapseNlGo, if_neg hc]
        exact hasTriple_cons_of_ne c _ hc (ih rest hrest)

/-- The newline collapse fixes any list with no triple newline. -/
theorem collapse_fix :
    ∀ (fuel : Nat) (l : List Char), hasTriple l = false → l.length ≤ fuel →
      collapseNlGo fuel l = l := by
  intro fuel
  induction fuel with
  | zero =>
    intro l _ h
    rw [List.length_eq_zero.mp (Nat.le_zero.mp h)]
    rfl
  | succ n ih =>
    intro l ht hlen
    cases l with
    | nil => rfl
    | cons c rest =>
      have hrest : rest.length ≤ n := by simpa using hlen
      by_cases hc : c = '\n'
      · subst hc
        rw [collapseNlGo, if_pos rfl]
        show ((if (rest.takeWhile (· = '\n')).length + 1 ≥ 3 then ['\n', '\n']
            else '\n' :: rest.takeWhile (· = '\n')) ++
           collapseNlGo n (rest.dropWhile (· = '\n'))) = '\n' :: rest
        have hk : ¬((rest.takeWhile (· = '\n')).length + 1 ≥ 3) := by
          intro hk3
          have hlen2 : 2 ≤ (rest.takeWhile (· = '\n')).length := by omega
          obtain ⟨r1, r2, rs, hr⟩ : ∃ r1 r2 rs,
              rest.takeWhile (· = '\n') = r1 :: r2 :: rs := by
            cases h1 : rest.takeWhile (· = '\n') with
            | nil => rw [h1] at hlen2; simp at hlen2
            | cons a as =>
              cases as with
              | nil => rw [h1] at hlen2; simp at hlen2
              | cons b bs => exact ⟨a, b, bs, rfl⟩
          have hr1 : r1 = '\n' := by
            have : r1 ∈ rest.takeWhile (· = '\n') := by
              rw [hr]; exact List.mem_cons_self _ _
            simpa using List.mem_takeWhile_imp this
          have hr2 : r2 = '\n' := by
            have : r2 ∈ rest.takeWhile (· = '\n') := by
              rw [hr]; exact List.mem_cons_of_mem _ (List.mem_cons_self _ _)
            simpa using List.mem_takeWhile_imp this
          obtain ⟨t, htp⟩ := @List.takeWhile_prefix _ rest (fun c => decide (c = '\n'))
          rw [hr, hr1, hr2] at htp
          rw [← htp] at ht
          simp [hasTriple] at ht
        rw [if_neg hk]
        have hafter : (rest.dropWhile (· = '\n')).length ≤ n :=
          le_trans (List.Sublist.length_le
            (List.IsSuffix.sublist (List.dropWhile_suffix (· = '\n')))) hrest
        have htafter : hasTriple (rest.dropWhile (· = '\n')) = false :=
          hasTriple_dropWhile (· = '\n') rest (hasTriple_tail '\n' rest ht)
        rw [ih _ htafter hafter]
        rw [show ('\n' :: rest.takeWhile (· = '\n')) ++ rest.dropWhile (· = '\n') =
          '\n' :: (rest.takeWhile (· = '\n') ++ rest.dropWhile (· = '\n')) from rfl]
        rw [List.takeWhile_append_dropWhile]
      · rw [collapseNlGo, if_neg hc]
        exact congrArg (c :: ·) (ih rest (hasTriple_tail c rest ht) hrest)

/-- Dropping an already-dropped prefix is a no-op. -/
theorem dropWhile_idem (p : Char → Bool) (l : List Char) :
    (l.dropWhile p).dropWhile p = l.dropWhile p := by
  cases h : l.dropWhile p with
  | nil => rfl
  | cons b t =>
    have hb : p b = false := head_dropWhile_not p l b (by rw [h]; rfl)
    rw [List.dropWhile_cons, if_neg (by simp [hb])]

/-- Reversing, dropping a prefix and reversing back yields a prefix. -/
theorem revDropRev_pref (p : Char → Bool) (A : List Char) :
    ((A.reverse.dropWhile p).reverse) <+: A := by
  obtain ⟨s, hs⟩ := @List.dropWhile_suffix _ A.reverse p
  refine ⟨s.reverse, ?_⟩
  have : (s ++ A.reverse.dropWhile p).reverse = A := by
    rw [hs, List.reverse_reverse]
  rw [List.reverse_append] at this
  exact this

/-- The trim output is a contiguous part of the input. -/
theorem jsTrim_sub (cs : List Char) : jsTrim cs <:+: cs := by
  unfold jsTrim
  exact ((revDropRev_pref jsWs (cs.dropWhile jsWs)).isInfix).trans
    (List.dropWhile_suffix jsWs).isInfix

/-- Trimming preserves the absence of triple newlines. -/
theorem hasTriple_jsTrim (cs : List Char) (h : hasTriple cs = false) :
    hasTriple (jsTrim cs) = false := by
  have h1 : hasTriple (cs.dropWhile jsWs) = false := by
    obtain ⟨s, hs⟩ := @List.dropWhile_suffix _ cs jsWs
    exact hasTriple_suffix_false s _ (by rw [hs]; exact h)
  obtain ⟨t, htp⟩ := revDropRev_pref jsWs (cs.dropWhile jsWs)
  show hasTriple (((cs.dropWhile jsWs).reverse.dropWhile jsWs).reverse) = false
  exact hasTriple_prefix_false _ t (by rw [htp]; exact h1)

/-- JS trim is idempotent. -/
theorem jsTrim_idem (cs : List Char) : jsTrim (jsTrim cs) = jsTrim cs := by
  unfold jsTrim
  set A := cs.dropWhile jsWs with hA
  set B := (A.reverse.dropWhile jsWs).reverse with hB
  have hBA : B <+: A := revDropRev_pref jsWs A
  have hfront : B.dropWhile jsWs = B := by
    cases hb : B with
    | nil => rfl
    | cons b t =>
      obtain ⟨u, hu⟩ := hBA
      have hpb : jsWs b = false := by
        refine head_dropWhile_not jsWs cs b ?_
        show A.head? = some b
        rw [← hu, hb]
        rfl
      rw [List.dropWhile_cons, if_neg (by simp [hpb])]
  have hback : B.reverse.dropWhile jsWs = B.reverse := by
    rw [hB, List.reverse_reverse]
    exact dropWhile_idem jsWs A.reverse
  rw [hfront, hback, hB, List.reverse_reverse]

/-- Absence of every character the sanitizer strips. -/
def noMarkup (s : String) : Bool :=
  s.data.all (fun c => !(c = '*' || c = '`' || c = '#' || c = '[' || c = '-' || c = '+'))

/-- C4 counterexample: the sanitizer is not idempotent — on `# # x`
one application leaves `# x`, whose leading heading marker a second
application strips again. -/
theorem sanitize_not_idempotent :
    sanitize "# # x" = "# x" ∧ sanitize (sanitize "# # x") = "x" ∧
    sanitize (sanitize "# # x") ≠ sanitize "# # x" := by
  decide

/-- List-level idempotence of the full cleanup chain on markup-free
text: the six stripping passes are the identity, and the newline
collapse followed by the trim is idempotent. -/
theorem sanitizeL_idem_plain (cs : List Char)
    (hstar : '*' ∉ cs) (hbt : '`' ∉ cs) (hhash : '#' ∉ cs)
    (hlb : '[' ∉ cs) (hdash : '-' ∉ cs) (hplus : '+' ∉ cs) :
    sanitizeL (sanitizeL cs) = sanitizeL cs := by
  have hid : ∀ l : List Char, '*' ∉ l → '`' ∉ l → '#' ∉ l → '[' ∉ l → '-' ∉ l →
      '+' ∉ l →
      rmListMarks (rmLinks (rmHeadings (replaceDelim ['`']
        (replaceDelim ['*'] (replaceDelim ['*', '*'] l))))) = l := by
    intro l h1 h2 h3 h4 h5 h6
    have e1 : replaceDelim ['*', '*'] l = l := replDelimGo_id '*' ['*'] _ l h1
    have e2 : replaceDelim ['*'] l = l := replDelimGo_id '*' [] _ l h1
    have e3 : replaceDelim ['`'] l = l := replDelimGo_id '`' [] _ l h2
    have e4 : rmHeadings l = l := rmHeadingsGo_id _ _ l h3
    have e5 : rmLinks l = l := rmLinksGo_id _ l h4
    have e6 : rmListMarks l = l := rmListMarksGo_id _ _ l h5 h1 h6
    rw [e1, e2, e3, e4, e5, e6]
  have step1 : sanitizeL cs = jsTrim (collapseNl cs) := by
    unfold sanitizeL
    rw [hid cs hstar hbt hhash hlb hdash hplus]
  have hYsub : ∀ c, c ∈ jsTrim (collapseNl cs) → c ∈ cs := by
    intro c hc
    have h2 : c ∈ collapseNl cs := (jsTrim_sub (collapseNl cs)).sublist.subset hc
    exact collapse_subset _ cs c h2
  have hnoY : hasTriple (jsTrim (collapseNl cs)) = false := by
    refine hasTriple_jsTrim _ ?_
    unfold collapseNl
    exact collapse_noTriple (cs.length + 1) cs (Nat.le_succ cs.length)
  have hcolY : collapseNl (jsTrim (collapseNl cs)) = jsTrim (collapseNl cs) := by
    unfold collapseNl
    exact collapse_fix _ _ hnoY (Nat.le_succ _)
  have htrY : jsTrim (jsTrim (collapseNl cs)) = jsTrim (collapseNl cs) := by
    unfold jsTrim
    exact jsTrim_idem (collapseNl cs)
  rw [step1]
  unfold sanitizeL
  rw [hid _ (fun hm => hstar (hYsub _ hm)) (fun hm => hbt (hYsub _ hm))
    (fun hm => hhash (hYsub _ hm)) (fun hm => hlb (hYsub _ hm))
    (fun hm => hdash (hYsub _ hm)) (fun hm => hplus (hYsub _ hm))]
  rw [hcolY]
  exact htrY

/-- C4 (amended): the sanitizer is idempotent on text containing none
of the stripped markup characters `*`, `` ` ``, `#`, `[`, `-`, `+`; in
general it is not idempotent (heading/list-marker/link removal can
expose fresh markup, as the counterexample `# # x` shows). -/
theorem sanitize_idempotent_on_plain (s : String) (h : noMarkup s = true) :
    sanitize (sanitize s) = sanitize s := by
  have hget := List.all_eq_true.mp h
  have hstar : '*' ∉ s.data := fun hm => by simpa using hget '*' hm
  have hbt : '`' ∉ s.data := fun hm => by simpa using hget '`' hm
  have hhash : '#' ∉ s.data := fun hm => by simpa using hget '#' hm
  have hlb : '[' ∉ s.data := fun hm => by simpa using hget '[' hm
  have hdash : '-' ∉ s.data := fun hm => by simpa using hget '-' hm
  have hplus : '+' ∉ s.data := fun hm => by simpa using hget '+' hm
  show String.mk (sanitizeL (sanitizeL s.data)) = String.mk (sanitizeL s.data)
  exact congrArg String.mk
    (sanitizeL_idem_plain s.data hstar hbt hhash hlb hdash hplus)

/-- Witness for C4 at a concrete markup-free text with excess
newlines and padding. -/
theorem sanitize_idempotent_on_plain_witness :
    noMarkup "  xin chao ban\n\n\n\n\ntoi la tro ly AI  " = true ∧
    sanitize (sanitize "  xin chao ban\n\n\n\n\ntoi la tro ly AI  ") =
      sanitize "  xin chao ban\n\n\n\n\ntoi la tro ly AI  " :=
  ⟨by decide, sanitize_idempotent_on_plain "  xin chao ban\n\n\n\n\ntoi la tro ly AI  "
    (by decide)⟩

end DualBot
